import Mathlib

/-!
Verification development for the chatger terminal chat client
(repository `chatger-tui`).  The Rust sources are shallowly embedded:
pure functions become Lean functions, byte strings become `List Nat`
(each element < 256 by construction), machine integers become `Nat`
(or `Int` for the one signed field) with explicit `% 2 ^ w` where the
source can overflow, and fallible code returns `Except`/`Option`.
A `none`/`.error .outOfBounds` result marks a place where the Rust code
would abort in an index/slice bounds failure.
-/

namespace Chatger

/-- Big-endian byte encoding of a `u64` (`u64::to_be_bytes`); the `% 256`
projections keep every byte in range also for model inputs above `2 ^ 64`. -/
def u64be (v : Nat) : List Nat :=
  [v / 2 ^ 56 % 256, v / 2 ^ 48 % 256, v / 2 ^ 40 % 256, v / 2 ^ 32 % 256,
   v / 2 ^ 24 % 256, v / 2 ^ 16 % 256, v / 2 ^ 8 % 256, v % 256]

/-- Big-endian byte encoding of a `u32` (`u32::to_be_bytes`). -/
def u32be (v : Nat) : List Nat :=
  [v / 2 ^ 24 % 256, v / 2 ^ 16 % 256, v / 2 ^ 8 % 256, v % 256]

/-- Big-endian byte encoding of a `u16` (`u16::to_be_bytes`). -/
def u16be (v : Nat) : List Nat :=
  [v / 2 ^ 8 % 256, v % 256]

/-- Two's-complement single byte of an `i8` (`i8::to_be_bytes`). -/
def i8be (v : Int) : List Nat :=
  [(v % 256).toNat]

/-- Big-endian value of a byte list (`uN::from_be_bytes`). -/
def beNat (l : List Nat) : Nat :=
  l.foldl (fun a b => a * 256 + b) 0

/-- Decode errors of the wire codec.  The Rust code reports most of these as
`anyhow` errors; `outOfBounds` stands for a Rust slice-index abort, which the
source does not catch. -/
inductive DErr
| shortFrame
| badMagic
| unknownVersion
| wrongDirection
| unknownType
| badStatus
| badUserStatus
| badMediaType
| badHealthKind
| badTypingFlag
| oversizeFrame
| outOfBounds
deriving DecidableEq, Repr

/-- Extract `bytes[i..i+n]`; a Rust range-index abort when out of range. -/
def subBytes (bytes : List Nat) (i n : Nat) : Except DErr (List Nat) :=
  if i + n ≤ bytes.length then .ok ((bytes.drop i).take n) else .error .outOfBounds

/-- Read the single byte `bytes[i]`; aborts (Rust index) when out of range. -/
def readU8 (bytes : List Nat) (i : Nat) : Except DErr Nat :=
  match bytes.get? i with
  | some b => .ok b
  | none => .error .outOfBounds

/-- Read a big-endian `u16` at offset `i` (`u16::from_be_bytes` on a 2-slice). -/
def readU16 (bytes : List Nat) (i : Nat) : Except DErr Nat :=
  (subBytes bytes i 2).map beNat

/-- Read a big-endian `u32` at offset `i`. -/
def readU32 (bytes : List Nat) (i : Nat) : Except DErr Nat :=
  (subBytes bytes i 4).map beNat

/-- Read a big-endian `u64` at offset `i`. -/
def readU64 (bytes : List Nat) (i : Nat) : Except DErr Nat :=
  (subBytes bytes i 8).map beNat

/-- Maximum accepted frame size, `MAX_MESSAGE_LENGTH` in `network/client.rs`. -/
def MAX_MESSAGE_LENGTH : Nat := 16 * 1024

end Chatger

namespace Chatger.Proto

/-! ### Wire protocol: shared enums (`network/protocol/mod.rs`) -/

/-- `UserStatus` byte enum. -/
inductive UserStatus
| offline
| online
| idle
| doNotDisturb
deriving DecidableEq, Repr

/-- Byte value of a `UserStatus` (its `#[repr(u8)]` discriminant). -/
def UserStatus.toByte : UserStatus → Nat
| .offline => 0x00
| .online => 0x01
| .idle => 0x02
| .doNotDisturb => 0x03

/-- `impl DeserializeByte for UserStatus`. -/
def UserStatus.deserializeByte (b : Nat) : Except DErr UserStatus :=
  match b with
  | 0x00 => .ok .offline
  | 0x01 => .ok .online
  | 0x02 => .ok .idle
  | 0x03 => .ok .doNotDisturb
  | _ => .error .badUserStatus

/-- `MediaType` byte enum. -/
inductive MediaType
| raw
| text
| audio
| image
| video
deriving DecidableEq, Repr

/-- Byte value of a `MediaType`. -/
def MediaType.toByte : MediaType → Nat
| .raw => 0x00
| .text => 0x01
| .audio => 0x02
| .image => 0x03
| .video => 0x04

/-- `impl DeserializeByte for MediaType` (per the enum discriminants). -/
def MediaType.deserializeByte (b : Nat) : Except DErr MediaType :=
  match b with
  | 0x00 => .ok .raw
  | 0x01 => .ok .text
  | 0x02 => .ok .audio
  | 0x03 => .ok .image
  | 0x04 => .ok .video
  | _ => .error .badMediaType

/-! ### Server-side wire entities (`network/protocol/server.rs`).
Rust `String` fields are modelled as raw byte lists; the UTF-8 validation of
`String::from_utf8` is not modelled (it is orthogonal to every claim, which
concern lengths and offsets only). -/

/-- `ReturnStatus` byte enum. -/
inductive ReturnStatus
| success
| failed
| notif
deriving DecidableEq, Repr

/-- `impl DeserializeByte for ReturnStatus` (`0x02` is the Notification value). -/
def ReturnStatus.deserializeByte (b : Nat) : Except DErr ReturnStatus :=
  match b with
  | 0x00 => .ok .success
  | 0x01 => .ok .failed
  | 0x02 => .ok .notif
  | _ => .error .badStatus

/-- `impl Deserialize for String` (server.rs lines 124-130): the length is the
index of the first NUL byte, defaulting to `MAX_MESSAGE_LENGTH` when no NUL is
present; `bytes[0..length]` then aborts when `length` exceeds the slice. -/
def stringDeserialize (bytes : List Nat) : Except DErr (List Nat × Nat) :=
  let length := match bytes.findIdx? (· = 0) with
    | some i => i
    | none => MAX_MESSAGE_LENGTH
  if length ≤ bytes.length then .ok (bytes.take length, length) else .error .outOfBounds

/-- `deserialize_error` (server.rs lines 69-76): an error-message string is
consumed from the tail exactly when the status is `Failed`. -/
def deserializeError (bytes : List Nat) (status : ReturnStatus) :
    Except DErr (Option (List Nat) × Nat) :=
  if status = .failed then
    (stringDeserialize bytes).map (fun p => (some p.1, p.2))
  else
    .ok (none, 0)

/-- `HealthKind` byte enum. -/
inductive HealthKind
| ping
| pong
deriving DecidableEq, Repr

/-- Byte value of a `HealthKind`. -/
def HealthKind.toByte : HealthKind → Nat
| .ping => 0x00
| .pong => 0x01

/-- `impl DeserializeByte for HealthKind`. -/
def HealthKind.deserializeByte (b : Nat) : Except DErr HealthKind :=
  match b with
  | 0x00 => .ok .ping
  | 0x01 => .ok .pong
  | _ => .error .badHealthKind

/-- `HealthCheckPacket`. -/
structure HealthCheckPacket where
  kind : HealthKind
deriving DecidableEq, Repr

/-- `impl Deserialize for HealthCheckPacket`: reads `bytes[0]`. -/
def HealthCheckPacket.deserialize (bytes : List Nat) :
    Except DErr (HealthCheckPacket × Nat) := do
  let b ← readU8 bytes 0
  let kind ← HealthKind.deserializeByte b
  .ok (⟨kind⟩, 1)

/-- `LoginAckPacket`. -/
structure LoginAckPacket where
  status : ReturnStatus
  errorMessage : Option (List Nat)
deriving DecidableEq, Repr

/-- `impl Deserialize for LoginAckPacket`. -/
def LoginAckPacket.deserialize (bytes : List Nat) :
    Except DErr (LoginAckPacket × Nat) := do
  let b ← readU8 bytes 0
  let status ← ReturnStatus.deserializeByte b
  let (errorMessage, errorLen) ← deserializeError (bytes.drop 1) status
  .ok (⟨status, errorMessage⟩, 1 + errorLen)

/-- `SendMessageAckPacket`. -/
structure SendMessageAckPacket where
  status : ReturnStatus
  messageId : Nat
  errorMessage : Option (List Nat)
deriving DecidableEq, Repr

/-- `impl Deserialize for SendMessageAckPacket`. -/
def SendMessageAckPacket.deserialize (bytes : List Nat) :
    Except DErr (SendMessageAckPacket × Nat) := do
  let b ← readU8 bytes 0
  let status ← ReturnStatus.deserializeByte b
  let messageId ← readU64 bytes 1
  let (errorMessage, errorLen) ← deserializeError (bytes.drop 9) status
  .ok (⟨status, messageId, errorMessage⟩, 9 + errorLen)

/-- `SendMediaAckPacket`. -/
structure SendMediaAckPacket where
  status : ReturnStatus
  mediaId : Nat
  errorMessage : Option (List Nat)
deriving DecidableEq, Repr

/-- `impl Deserialize for SendMediaAckPacket`. -/
def SendMediaAckPacket.deserialize (bytes : List Nat) :
    Except DErr (SendMediaAckPacket × Nat) := do
  let b ← readU8 bytes 0
  let status ← ReturnStatus.deserializeByte b
  let mediaId ← readU64 bytes 1
  let (errorMessage, errorLen) ← deserializeError (bytes.drop 9) status
  .ok (⟨status, mediaId, errorMessage⟩, 9 + errorLen)

/-- `ChannelsListPacket`. -/
structure ChannelsListPacket where
  status : ReturnStatus
  channelIds : List Nat
  errorMessage : Option (List Nat)
deriving DecidableEq, Repr

/-- Read `n` consecutive big-endian `u64` values starting at offset `i`. -/
def readU64s (bytes : List Nat) (i : Nat) : Nat → Except DErr (List Nat × Nat)
| 0 => .ok ([], i)
| n + 1 => do
  let v ← readU64 bytes i
  let (vs, i') ← readU64s bytes (i + 8) n
  .ok (v :: vs, i')

/-- `impl Deserialize for ChannelsListPacket`. -/
def ChannelsListPacket.deserialize (bytes : List Nat) :
    Except DErr (ChannelsListPacket × Nat) := do
  let b ← readU8 bytes 0
  let status ← ReturnStatus.deserializeByte b
  let channelsCount ← readU16 bytes 1
  let (channelIds, byteIndex) ← readU64s bytes 3 channelsCount
  let (errorMessage, errorLen) ← deserializeError (bytes.drop byteIndex) status
  .ok (⟨status, channelIds, errorMessage⟩, byteIndex + errorLen)

/-- Wire `Channel` record. -/
structure Channel where
  channelId : Nat
  name : List Nat
  iconId : Nat
deriving DecidableEq, Repr

/-- `impl Deserialize for Channel`:
`[channel_id|8][name_len|1][channel_name][icon_id|8]`. -/
def Channel.deserialize (bytes : List Nat) : Except DErr (Channel × Nat) := do
  let channelId ← readU64 bytes 0
  let nameLen ← readU8 bytes 8
  let name ← subBytes bytes 9 nameLen
  let iconId ← readU64 bytes (8 + nameLen + 1)
  .ok (⟨channelId, name, iconId⟩, 8 + nameLen + 1 + 8)

/-- Read `n` consecutive `Channel` records starting at offset `i`; each
recursive call receives the tail slice `&bytes[byte_index..]`. -/
def readChannels (bytes : List Nat) (i : Nat) : Nat → Except DErr (List Channel × Nat)
| 0 => .ok ([], i)
| n + 1 => do
  if i ≤ bytes.length then
    let (c, used) ← Channel.deserialize (bytes.drop i)
    let (cs, i') ← readChannels bytes (i + used) n
    .ok (c :: cs, i')
  else
    .error .outOfBounds

/-- `GetChannelsResponsePacket`. -/
structure GetChannelsResponsePacket where
  status : ReturnStatus
  channels : List Channel
  errorMessage : Option (List Nat)
deriving DecidableEq, Repr

/-- `impl Deserialize for GetChannelsResponsePacket`. -/
def GetChannelsResponsePacket.deserialize (bytes : List Nat) :
    Except DErr (GetChannelsResponsePacket × Nat) := do
  let b ← readU8 bytes 0
  let status ← ReturnStatus.deserializeByte b
  let channelCount ← readU16 bytes 1
  let (channels, byteIndex) ← readChannels bytes 3 channelCount
  let (errorMessage, errorLen) ← deserializeError (bytes.drop byteIndex) status
  .ok (⟨status, channels, errorMessage⟩, byteIndex + errorLen)

/-- Wire `UserData` record. -/
structure UserData where
  userId : Nat
  status : UserStatus
  username : List Nat
  pfpId : Nat
  bio : List Nat
deriving DecidableEq, Repr

/-- `impl Deserialize for UserData` (server.rs):
`[user_id|8][status|1][username_len|1][username][pfp_id|8][bio_len|2][bio]`. -/
def UserData.deserialize (bytes : List Nat) : Except DErr (UserData × Nat) := do
  let userId ← readU64 bytes 0
  let sb ← readU8 bytes 8
  let status ← UserStatus.deserializeByte sb
  let usernameLength ← readU8 bytes 9
  let username ← subBytes bytes 10 usernameLength
  let pfpId ← readU64 bytes (10 + usernameLength)
  let bioLength ← readU16 bytes (10 + usernameLength + 8)
  let bio ← subBytes bytes (10 + usernameLength + 8 + 2) bioLength
  .ok (⟨userId, status, username, pfpId, bio⟩, 10 + usernameLength + 8 + 2 + bioLength)

/-- Read `n` consecutive `UserData` records starting at offset `i`. -/
def readUserDatas (bytes : List Nat) (i : Nat) : Nat → Except DErr (List UserData × Nat)
| 0 => .ok ([], i)
| n + 1 => do
  if i ≤ bytes.length then
    let (u, used) ← UserData.deserialize (bytes.drop i)
    let (us, i') ← readUserDatas bytes (i + used) n
    .ok (u :: us, i')
  else
    .error .outOfBounds

/-- `UsersPacket`. -/
structure UsersPacket where
  status : ReturnStatus
  users : List UserData
  errorMessage : Option (List Nat)
deriving DecidableEq, Repr

/-- `impl Deserialize for UsersPacket` (count is one byte). -/
def UsersPacket.deserialize (bytes : List Nat) :
    Except DErr (UsersPacket × Nat) := do
  let b ← readU8 bytes 0
  let status ← ReturnStatus.deserializeByte b
  let userCount ← readU8 bytes 1
  let (users, byteIndex) ← readUserDatas bytes 2 userCount
  let (errorMessage, errorLen) ← deserializeError (bytes.drop byteIndex) status
  .ok (⟨status, users, errorMessage⟩, byteIndex + errorLen)

/-- Wire `HistoryMessage` record. -/
structure HistoryMessage where
  messageId : Nat
  sentTimestamp : Nat
  userId : Nat
  channelId : Nat
  replyId : Nat
  messageText : List Nat
  mediaIds : List Nat
deriving DecidableEq, Repr

/-- `impl Deserialize for HistoryMessage`:
`[message_id|8][sent_ts|8][user_id|8][channel_id|8][reply_id|8]`
`[message_len|2][message_text][num_media|1][media_ids|num_media*8]`. -/
def HistoryMessage.deserialize (bytes : List Nat) :
    Except DErr (HistoryMessage × Nat) := do
  let messageId ← readU64 bytes 0
  let sentTimestamp ← readU64 bytes 8
  let userId ← readU64 bytes 16
  let channelId ← readU64 bytes 24
  let replyId ← readU64 bytes 32
  let messageLen ← readU16 bytes 40
  let messageText ← subBytes bytes 42 messageLen
  let numMedia ← readU8 bytes (42 + messageLen)
  let (mediaIds, byteIndex) ← readU64s bytes (42 + messageLen + 1) numMedia
  .ok (⟨messageId, sentTimestamp, userId, channelId, replyId, messageText, mediaIds⟩,
       byteIndex)

/-- Read `n` consecutive `HistoryMessage` records starting at offset `i`. -/
def readHistoryMessages (bytes : List Nat) (i : Nat) :
    Nat → Except DErr (List HistoryMessage × Nat)
| 0 => .ok ([], i)
| n + 1 => do
  if i ≤ bytes.length then
    let (m, used) ← HistoryMessage.deserialize (bytes.drop i)
    let (ms, i') ← readHistoryMessages bytes (i + used) n
    .ok (m :: ms, i')
  else
    .error .outOfBounds

/-- `HistoryPacket`. -/
structure HistoryPacket where
  status : ReturnStatus
  messages : List HistoryMessage
  errorMessage : Option (List Nat)
deriving DecidableEq, Repr

/-- `impl Deserialize for HistoryPacket` (count is one byte). -/
def HistoryPacket.deserialize (bytes : List Nat) :
    Except DErr (HistoryPacket × Nat) := do
  let b ← readU8 bytes 0
  let status ← ReturnStatus.deserializeByte b
  let messageCount ← readU8 bytes 1
  let (messages, byteIndex) ← readHistoryMessages bytes 2 messageCount
  let (errorMessage, errorLen) ← deserializeError (bytes.drop byteIndex) status
  .ok (⟨status, messages, errorMessage⟩, byteIndex + errorLen)

/-- Read `n` consecutive `(user_id, status)` pairs starting at offset `i`. -/
def readUserStatusPairs (bytes : List Nat) (i : Nat) :
    Nat → Except DErr (List (Nat × UserStatus) × Nat)
| 0 => .ok ([], i)
| n + 1 => do
  let userId ← readU64 bytes i
  let sb ← readU8 bytes (i + 8)
  let status ← UserStatus.deserializeByte sb
  let (ps, i') ← readUserStatusPairs bytes (i + 9) n
  .ok ((userId, status) :: ps, i')

/-- `UserStatusesPacket`. -/
structure UserStatusesPacket where
  status : ReturnStatus
  users : List (Nat × UserStatus)
  errorMessage : Option (List Nat)
deriving DecidableEq, Repr

/-- `impl Deserialize for UserStatusesPacket` (count is two bytes). -/
def UserStatusesPacket.deserialize (bytes : List Nat) :
    Except DErr (UserStatusesPacket × Nat) := do
  let b ← readU8 bytes 0
  let status ← ReturnStatus.deserializeByte b
  let userCount ← readU16 bytes 1
  let (users, byteIndex) ← readUserStatusPairs bytes 3 userCount
  let (errorMessage, errorLen) ← deserializeError (bytes.drop byteIndex) status
  .ok (⟨status, users, errorMessage⟩, byteIndex + errorLen)

/-- `MediaPacket`. -/
structure MediaPacket where
  status : ReturnStatus
  filename : List Nat
  mediaType : MediaType
  mediaData : List Nat
  errorMessage : Option (List Nat)
deriving DecidableEq, Repr

/-- `impl Deserialize for MediaPacket`. -/
def MediaPacket.deserialize (bytes : List Nat) :
    Except DErr (MediaPacket × Nat) := do
  let b ← readU8 bytes 0
  let status ← ReturnStatus.deserializeByte b
  let filenameLength ← readU8 bytes 1
  let filename ← subBytes bytes 2 filenameLength
  let mb ← readU8 bytes (2 + filenameLength)
  let mediaType ← MediaType.deserializeByte mb
  let mediaLength ← readU32 bytes (2 + filenameLength + 1)
  let mediaData ← subBytes bytes (2 + filenameLength + 1 + 4) mediaLength
  let byteIndex := 2 + filenameLength + 1 + 4 + mediaLength
  let (errorMessage, errorLen) ← deserializeError (bytes.drop byteIndex) status
  .ok (⟨status, filename, mediaType, mediaData, errorMessage⟩, byteIndex + errorLen)

/-- `UserTypingPacket`. -/
structure UserTypingPacket where
  isTyping : Bool
  userId : Nat
  channelId : Nat
deriving DecidableEq, Repr

/-- `impl Deserialize for UserTypingPacket`. -/
def UserTypingPacket.deserialize (bytes : List Nat) :
    Except DErr (UserTypingPacket × Nat) := do
  let b ← readU8 bytes 0
  let isTyping ← match b with
    | 0x00 => pure false
    | 0x01 => pure true
    | _ => Except.error .badTypingFlag
  let userId ← readU64 bytes 1
  let channelId ← readU64 bytes 9
  .ok (⟨isTyping, userId, channelId⟩, 17)

/-- `UserStatusPacket`. -/
structure UserStatusPacket where
  status : UserStatus
  userId : Nat
deriving DecidableEq, Repr

/-- `impl Deserialize for UserStatusPacket`. -/
def UserStatusPacket.deserialize (bytes : List Nat) :
    Except DErr (UserStatusPacket × Nat) := do
  let b ← readU8 bytes 0
  let status ← UserStatus.deserializeByte b
  let userId ← readU64 bytes 1
  .ok (⟨status, userId⟩, 9)

/-- `ServerPacketType` byte enum (high bit clear). -/
inductive ServerPacketType
| healthcheck
| loginAck
| sendMessageAck
| sendMediaAck
| channelList
| channels
| history
| userStatuses
| users
| media
| typing
| userStatus
deriving DecidableEq, Repr

/-- `impl DeserializeByte for ServerPacketType`. -/
def ServerPacketType.deserializeByte (b : Nat) : Except DErr ServerPacketType :=
  match b with
  | 0x00 => .ok .healthcheck
  | 0x01 => .ok .loginAck
  | 0x02 => .ok .sendMessageAck
  | 0x03 => .ok .sendMediaAck
  | 0x04 => .ok .channelList
  | 0x05 => .ok .channels
  | 0x06 => .ok .history
  | 0x07 => .ok .userStatuses
  | 0x08 => .ok .users
  | 0x09 => .ok .media
  | 0x0A => .ok .typing
  | 0x0B => .ok .userStatus
  | _ => .error .unknownType

/-- `ServerPayload` sum. -/
inductive ServerPayload
| health (p : HealthCheckPacket)
| login (p : LoginAckPacket)
| sendMessageAck (p : SendMessageAckPacket)
| sendMediaAck (p : SendMediaAckPacket)
| channels (p : GetChannelsResponsePacket)
| channelsList (p : ChannelsListPacket)
| userStatuses (p : UserStatusesPacket)
| users (p : UsersPacket)
| history (p : HistoryPacket)
| media (p : MediaPacket)
| typing (p : UserTypingPacket)
| status (p : UserStatusPacket)
deriving DecidableEq, Repr

/-- `ServerPayload::deserialize_packet`: dispatch on the packet type. -/
def ServerPayload.deserializePacket (bytes : List Nat) (t : ServerPacketType) :
    Except DErr (ServerPayload × Nat) :=
  match t with
  | .loginAck => (LoginAckPacket.deserialize bytes).map fun p => (.login p.1, p.2)
  | .healthcheck => (HealthCheckPacket.deserialize bytes).map fun p => (.health p.1, p.2)
  | .sendMessageAck =>
      (SendMessageAckPacket.deserialize bytes).map fun p => (.sendMessageAck p.1, p.2)
  | .sendMediaAck =>
      (SendMediaAckPacket.deserialize bytes).map fun p => (.sendMediaAck p.1, p.2)
  | .channelList => (ChannelsListPacket.deserialize bytes).map fun p => (.channelsList p.1, p.2)
  | .channels =>
      (GetChannelsResponsePacket.deserialize bytes).map fun p => (.channels p.1, p.2)
  | .history => (HistoryPacket.deserialize bytes).map fun p => (.history p.1, p.2)
  | .userStatuses =>
      (UserStatusesPacket.deserialize bytes).map fun p => (.userStatuses p.1, p.2)
  | .users => (UsersPacket.deserialize bytes).map fun p => (.users p.1, p.2)
  | .media => (MediaPacket.deserialize bytes).map fun p => (.media p.1, p.2)
  | .typing => (UserTypingPacket.deserialize bytes).map fun p => (.typing p.1, p.2)
  | .userStatus => (UserStatusPacket.deserialize bytes).map fun p => (.status p.1, p.2)

/-! ### Client-side wire entities (`network/protocol/client.rs`).
Strings are raw byte lists (`str::as_bytes`). -/

/-- `HealthCheckPacket::serialize` (one kind byte). -/
def HealthCheckPacket.serialize (p : HealthCheckPacket) : List Nat :=
  [p.kind.toByte]

/-- `LoginPacket`: username and password joined by a single NUL byte. -/
structure LoginPacket where
  username : List Nat
  password : List Nat
deriving DecidableEq, Repr

/-- `impl Serialize for LoginPacket`. -/
def LoginPacket.serialize (p : LoginPacket) : List Nat :=
  p.username ++ [0] ++ p.password

/-- `GetChannelsPacket`. -/
structure GetChannelsPacket where
  channelIds : List Nat
deriving DecidableEq, Repr

/-- `impl Serialize for GetChannelsPacket`: 2-byte count then ids. -/
def GetChannelsPacket.serialize (p : GetChannelsPacket) : List Nat :=
  u16be p.channelIds.length ++ p.channelIds.flatMap u64be

/-- `GetUsersPacket`. -/
structure GetUsersPacket where
  userIds : List Nat
deriving DecidableEq, Repr

/-- `impl Serialize for GetUsersPacket`: 1-byte count then ids. -/
def GetUsersPacket.serialize (p : GetUsersPacket) : List Nat :=
  [p.userIds.length % 256] ++ p.userIds.flatMap u64be

/-- `Anchor` (client.rs lines 131-134): a history origin, either a Unix
timestamp (wire MSB flag 0) or a message id (wire MSB flag 1 per the format
comment above `GetHistoryPacket`). -/
inductive Anchor
| timestamp (v : Nat)
| messageId (v : Nat)
deriving DecidableEq, Repr

/-- `impl Serialize for Anchor` (client.rs lines 136-143): both variants emit
`anchor.to_be_bytes()` unchanged; no MSB flag bit is applied to either. -/
def Anchor.serialize : Anchor → List Nat
| .timestamp v => u64be v
| .messageId v => u64be v

/-- `GetHistoryPacket`. -/
structure GetHistoryPacket where
  channelId : Nat
  anchor : Anchor
  numMessagesBack : Int
deriving DecidableEq, Repr

/-- `impl Serialize for GetHistoryPacket`: channel id, anchor, signed count. -/
def GetHistoryPacket.serialize (p : GetHistoryPacket) : List Nat :=
  u64be p.channelId ++ p.anchor.serialize ++ i8be p.numMessagesBack

/-- `SendMessagePacket`. -/
structure SendMessagePacket where
  channelId : Nat
  replyId : Nat
  mediaIds : List Nat
  messageText : List Nat
deriving DecidableEq, Repr

/-- `impl Serialize for SendMessagePacket`:
`[channel_id|8][reply_id|8][num_media|1][media_ids][text]`. -/
def SendMessagePacket.serialize (p : SendMessagePacket) : List Nat :=
  u64be p.channelId ++ u64be p.replyId ++ [p.mediaIds.length % 256] ++
    p.mediaIds.flatMap u64be ++ p.messageText

/-- `GetMediaPacket`. -/
structure GetMediaPacket where
  mediaId : Nat
deriving DecidableEq, Repr

/-- `impl Serialize for GetMediaPacket`. -/
def GetMediaPacket.serialize (p : GetMediaPacket) : List Nat :=
  u64be p.mediaId

/-- `SendMediaPacket`. -/
structure SendMediaPacket where
  filename : List Nat
  mediaType : MediaType
  mediaData : List Nat
deriving DecidableEq, Repr

/-- `impl Serialize for SendMediaPacket`:
`[filename_len|4][filename][media_type|1][data_len|4][data]`. -/
def SendMediaPacket.serialize (p : SendMediaPacket) : List Nat :=
  u32be p.filename.length ++ p.filename ++ [p.mediaType.toByte] ++
    u32be p.mediaData.length ++ p.mediaData

/-- `TypingPacket`. -/
structure TypingPacket where
  isTyping : Bool
  channelId : Nat
deriving DecidableEq, Repr

/-- `impl Serialize for TypingPacket`: one boolean byte then the channel id. -/
def TypingPacket.serialize (p : TypingPacket) : List Nat :=
  [if p.isTyping then 1 else 0] ++ u64be p.channelId

/-- `StatusPacket`. -/
structure StatusPacket where
  status : UserStatus
deriving DecidableEq, Repr

/-- `impl Serialize for StatusPacket`. -/
def StatusPacket.serialize (p : StatusPacket) : List Nat :=
  [p.status.toByte]

/-- `ClientPayload` sum (client.rs lines 32-46). -/
inductive ClientPayload
| login (p : LoginPacket)
| health (p : HealthCheckPacket)
| channels (p : GetChannelsPacket)
| sendMessage (p : SendMessagePacket)
| sendMedia (p : SendMediaPacket)
| channelsList
| userStatuses
| users (p : GetUsersPacket)
| history (p : GetHistoryPacket)
| media (p : GetMediaPacket)
| typing (p : TypingPacket)
| status (p : StatusPacket)
deriving DecidableEq, Repr

/-- `impl Serialize for ClientPayload` (client.rs lines 48-66). -/
def ClientPayload.serialize : ClientPayload → List Nat
| .login p => p.serialize
| .health p => p.serialize
| .sendMessage p => p.serialize
| .sendMedia p => p.serialize
| .channels p => p.serialize
| .channelsList => []
| .userStatuses => []
| .users p => p.serialize
| .history p => p.serialize
| .media p => p.serialize
| .typing p => p.serialize
| .status p => p.serialize

/-- The `ClientPacketType` byte the sender functions in `network/client.rs`
pair with each payload variant (the `#[repr(u8)]` discriminants, high bit
set). -/
def ClientPayload.typeByte : ClientPayload → Nat
| .health _ => 0x80
| .login _ => 0x81
| .sendMessage _ => 0x82
| .sendMedia _ => 0x83
| .channelsList => 0x84
| .channels _ => 0x85
| .history _ => 0x86
| .userStatuses => 0x87
| .users _ => 0x88
| .media _ => 0x89
| .typing _ => 0x8A
| .status _ => 0x8B

/-! ### Framing (`network/protocol/header.rs`, `network/client.rs`) -/

/-- `PacketType`: direction-tagged packet type. -/
inductive PacketType
| server (t : ServerPacketType)
| client (b : Nat)
deriving DecidableEq, Repr

/-- `impl Deserialize for PacketType` (header.rs lines 77-89): the high bit
`0x80` indicates a client packet, which the client-side decoder rejects. -/
def PacketType.deserialize (b : Nat) : Except DErr PacketType :=
  if b.land 0x80 = 0 then
    (ServerPacketType.deserializeByte b).map PacketType.server
  else
    .error .wrongDirection

/-- `PacketVersion::deserialize`: only `0x01` (V1) is accepted. -/
def PacketVersion.deserialize (b : Nat) : Except DErr Unit :=
  if b = 0x01 then .ok () else .error .unknownVersion

/-- Decoded frame header. -/
structure Header where
  packetType : PacketType
  length : Nat
deriving DecidableEq, Repr

/-- `Header::new(t, len).serialize()` for a client packet type byte `tb`
(header.rs lines 20-40): magic `CHTG`, version `0x01`, type byte,
4-byte big-endian length. -/
def headerSerialize (tb : Nat) (length : Nat) : List Nat :=
  [67, 72, 84, 71] ++ [0x01] ++ [tb] ++ u32be length

/-- `impl Deserialize for Header` (header.rs lines 42-68). -/
def Header.deserialize (bytes : List Nat) : Except DErr (Header × Nat) :=
  if bytes.length < 10 then .error .shortFrame
  else if bytes.take 4 ≠ [67, 72, 84, 71] then .error .badMagic
  else do
    let vb ← readU8 bytes 4
    let _ ← PacketVersion.deserialize vb
    let tb ← readU8 bytes 5
    let packetType ← PacketType.deserialize tb
    let length ← readU32 bytes 6
    .ok (⟨packetType, length⟩, 10)

/-- `Client::send_message` framing (network/client.rs lines 327-350): the
serialized header followed by the serialized payload. -/
def encodeFrame (p : ClientPayload) : List Nat :=
  headerSerialize p.typeByte p.serialize.length ++ p.serialize

/-- Client-side frame decoding as performed by `Client::read_message`
(network/client.rs lines 352-381): decode the header, enforce the
`MAX_MESSAGE_LENGTH` bound, extract the payload bytes and decode them by
packet type; the consumed length is `10 + payload bytes consumed`. -/
def decodeFrame (bytes : List Nat) : Except DErr (ServerPayload × Nat) := do
  let (h, _) ← Header.deserialize bytes
  if h.length + 10 > MAX_MESSAGE_LENGTH then .error .oversizeFrame
  else do
    let payload ← subBytes bytes 10 h.length
    match h.packetType with
    | .client _ => .error .wrongDirection
    | .server t => do
        let (p, n) ← ServerPayload.deserializePacket payload t
        .ok (p, 10 + n)

end Chatger.Proto

namespace Chatger.Tui

/-!
### TUI state machine (`src/tui/...`)

The event-driven update function is embedded as a pure state transformer.
Conventions:
* Rust `String` values on the TUI side become Lean `String`; positions are
  character positions (the claims never depend on multi-byte UTF-8 offsets).
* `HashMap` and `VecDeque` become association lists / plain lists; for a
  `HashMap` the model fixes insertion order as iteration order (Rust leaves
  the iteration order unspecified).  In a `VecDeque` the list head is the
  queue front.
* Outbound `Client` calls are collected in a `List ClientCall` in program
  order; the network transmission itself is outside the model.
* A handler result of `none` marks a Rust abort (index out of bounds,
  `todo`-style unimplemented arm, or an explicit unreachable branch).
* `Instant::now()`/`Utc::now()` readings are supplied through an explicit
  `now` parameter (a single event handler reads the clock at most once per
  site, and the sites never compare two readings inside one event).
-/

/-- User status shared with the protocol layer. -/
abbrev UserStatus := Chatger.Proto.UserStatus

/-- `ChatMessageStatus` (tui/chat.rs): the source spells the acknowledged
state `Send`. -/
inductive ChatMessageStatus
| sending
| send
| failedToSend
deriving DecidableEq, Repr

/-- `ChatMessage` (tui/chat.rs); `DateTime<Utc>` is modelled as Unix
seconds. -/
structure ChatMessage where
  messageId : Nat
  replyId : Nat
  authorName : String
  authorId : Nat
  timestamp : Nat
  message : String
  status : ChatMessageStatus
deriving DecidableEq, Repr

/-- `ChannelStatus` (tui/chat.rs). -/
inductive ChannelStatus
| read
| unread
| muted
deriving DecidableEq, Repr

/-- `DisplayChannel` (tui/chat.rs). -/
structure DisplayChannel where
  id : Nat
  name : String
  status : ChannelStatus
  selectionOffset : Nat
deriving DecidableEq, Repr

/-- Wire `Channel` as carried by TUI events (name already UTF-8 decoded). -/
structure Channel where
  channelId : Nat
  name : String
  iconId : Nat
deriving DecidableEq, Repr

/-- `impl From<Channel> for DisplayChannel`. -/
def DisplayChannel.ofChannel (c : Channel) : DisplayChannel :=
  ⟨c.channelId, c.name, .read, 0⟩

/-- `User` (tui/chat.rs). -/
structure User where
  id : Nat
  name : String
  status : UserStatus
deriving DecidableEq, Repr

/-- `UserProfile` (tui/screens/chat/mod.rs). -/
structure UserProfile where
  userId : Nat
  username : String
  password : String
  status : UserStatus
deriving DecidableEq, Repr

/-- Wire `UserData` as carried by TUI events (strings UTF-8 decoded). -/
structure UserData where
  userId : Nat
  status : UserStatus
  username : String
  pfpId : Nat
  bio : String
deriving DecidableEq, Repr

/-- Wire `HistoryMessage` as carried by TUI events. -/
structure HistoryMessage where
  messageId : Nat
  sentTimestamp : Nat
  userId : Nat
  channelId : Nat
  replyId : Nat
  messageText : String
  mediaIds : List Nat
deriving DecidableEq, Repr

/-- `MediaMessage` (tui/chat.rs). -/
structure MediaMessage where
  filename : String
  mediaType : Chatger.Proto.MediaType
  mediaData : List Nat
deriving DecidableEq, Repr

/-- `ServerConnectionStatus` (network/client.rs). -/
inductive ServerConnectionStatus
| connected
| unhealthy
| disconnected
| reconnecting
deriving DecidableEq, Repr

/-- `ChatFocus` (tui/screens/chat/mod.rs). -/
inductive ChatFocus
| channels
| chatHistory
| chatHistorySelection
| chatInput (i : Nat)
| users (i : Nat)
| logs
deriving DecidableEq, Repr

/-- `LoginFocus` (tui/screens/login/mod.rs). -/
inductive LoginFocus
| usernameInput (i : Nat)
| passwordInput (i : Nat)
| serverAddressInput (i : Nat)
| loginButton
| nothing
deriving DecidableEq, Repr

/-- `ChatState` (tui/screens/chat/mod.rs lines 39-58).  `chat_history`,
`chat_inputs` and `users_typing` are `HashMap`s modelled as association
lists; `waiting_message_acks_id` is a `VecDeque` with the list head as its
front.  `server_address : SocketAddr` is modelled by its display string. -/
structure ChatState where
  focus : ChatFocus
  channels : List DisplayChannel
  users : List User
  chatHistory : List (Nat × List ChatMessage)
  chatInputs : List (Nat × String)
  activeChannelIdx : Nat
  currentUser : UserProfile
  chatScrollOffset : Nat
  serverAddress : String
  serverConnectionStatus : ServerConnectionStatus
  waitingMessageAcksId : List Nat
  incrementingAckId : Nat
  usersTyping : List (Nat × List (Nat × String))
  isTyping : Bool
  timeSinceLastTyping : Nat
  timeSinceLastFocused : Option Nat
  replyingTo : Option ChatMessage
deriving DecidableEq, Repr

/-- `InputStatus` (tui/screens/login/mod.rs). -/
inductive InputStatus
| allFine
| failedToLogin
| userNotFound
| incorrectPassword
| incorrectUsernameOrPassword
| serverNotFound
| addressNotParsable
| unknownError
deriving DecidableEq, Repr

/-- `LoginState` (tui/screens/login/mod.rs); the parsed `ServerAddrInfo` is
modelled by its socket-address string. -/
structure LoginState where
  usernameInput : String
  passwordInput : String
  serverAddressInput : String
  serverAddress : Option String
  focus : LoginFocus
  inputStatus : InputStatus
  enableTls : Bool
deriving DecidableEq, Repr

/-- `Screen` cache key (tui/screens/mod.rs lines 26-30). -/
inductive Screen
| login
| chat (username password addr : String)
deriving DecidableEq, Repr

/-- `AppState` (tui/screens/mod.rs). -/
inductive AppState
| login (l : LoginState)
| chat (c : ChatState)
deriving DecidableEq, Repr

/-- `GlobalState` (tui/screens/mod.rs); log entries are plain strings. -/
structure GlobalState where
  logs : List String
  logScrollOffset : Nat
  showLogs : Bool
  shouldQuit : Bool
deriving DecidableEq, Repr

/-- `State` (tui/screens/mod.rs) together with the `Client` connection
status the chat handlers read and write. -/
structure TuiState where
  globalState : GlobalState
  currentState : AppState
  stateMap : List (Screen × AppState)
  clientStatus : ServerConnectionStatus
deriving DecidableEq, Repr

/-- `TuiEvent` (tui/events.rs). -/
inductive TuiEvent
| log (entry : String)
| exit
| channelUp
| channelDown
| chatFocusChange (f : ChatFocus)
| loginFocusChange (f : LoginFocus)
| inputRight
| inputRightTab
| inputLeft
| inputLeftTab
| inputChar (c : Char)
| inputDelete
| messageSend
| toggleLogs
| loginSuccess (userId : Nat)
| login
| logout
| loginFail (reason : String)
| healthCheckRecv
| disconnected
| channels (cs : List Channel)
| channelIDs (ids : List Nat)
| scrollUp
| scrollDown
| userStatusesUpdate (us : List (Nat × UserStatus))
| userStatusUpdate (userId : Nat) (s : UserStatus)
| users (us : List UserData)
| historyUpdate (ms : List HistoryMessage)
| messageSendAck (id : Nat)
| messageMediaAck (id : Nat)
| media (m : MediaMessage)
| typing (channelId userId : Nat) (flag : Bool)
| typingExpired
| possiblyUnhealthyConnection
| reconnect
| focusGained
| focusLost
| idleUser
| reply
| viewUsers
deriving DecidableEq, Repr

/-- Outbound `Client` calls issued by the update function, in program
order. -/
inductive ClientCall
| sendUserStatus (s : UserStatus)
| sendTyping (channelId : Nat) (isTyping : Bool)
| sendChatMessage (channelId replyId : Nat) (text : String) (mediaIds : List Nat)
| requestChannels (ids : List Nat)
| requestChannelIds
| requestUserStatuses
| requestUsers (ids : List Nat)
| requestHistoryByTimestamp (channelId timestamp : Nat) (numBack : Int)
| sendHealthcheck
| disconnect
| reconnect (addr username password : String)
deriving DecidableEq, Repr

/-! ### Container helpers (HashMap / VecDeque / String models) -/

/-- `HashMap::get` on the association-list model (keys are unique in every
map the embedding builds, so first-match semantics model the hash map). -/
def alookup : List (Nat × β) → Nat → Option β
| [], _ => none
| p :: rest, k => if p.1 = k then some p.2 else alookup rest k

/-- `HashMap::insert` on the association-list model: replace in place when
the key is present, otherwise append. -/
def ainsert : List (Nat × β) → Nat → β → List (Nat × β)
| [], k, v => [(k, v)]
| p :: rest, k, v => if p.1 = k then (p.1, v) :: rest else p :: ainsert rest k v

/-- Apply `f` to the entry at key `k`, inserting `d` first when absent
(`entry(k).or_insert(d)` / `or_default` followed by a mutation). -/
def aentryModify : List (Nat × β) → Nat → β → (β → β) → List (Nat × β)
| [], k, d, f => [(k, f d)]
| p :: rest, k, d, f =>
  if p.1 = k then (p.1, f p.2) :: rest else p :: aentryModify rest k d f

/-- `stateMap` lookup (`HashMap<Screen, AppState>::get`). -/
def slookup : List (Screen × AppState) → Screen → Option AppState
| [], _ => none
| p :: rest, k => if p.1 = k then some p.2 else slookup rest k

/-- `stateMap` insert. -/
def sinsert : List (Screen × AppState) → Screen → AppState →
    List (Screen × AppState)
| [], k, v => [(k, v)]
| p :: rest, k, v => if p.1 = k then (p.1, v) :: rest else p :: sinsert rest k v

/-- Update the first list element satisfying `p` by `f`; also reports
whether a matching element was found. -/
def updateFirst (p : α → Bool) (f : α → α) : List α → List α × Bool
| [] => ([], false)
| x :: xs =>
  if p x then (f x :: xs, true)
  else
    let r := updateFirst p f xs
    (x :: r.1, r.2)

/-- `chat_history.values_mut().flat_map(...).find(...)` followed by an
in-place mutation: update the first matching message across the histories in
iteration order; reports whether one was found. -/
def updateFirstInHistory (p : ChatMessage → Bool) (f : ChatMessage → ChatMessage) :
    List (Nat × List ChatMessage) → List (Nat × List ChatMessage) × Bool
| [] => ([], false)
| (k, ms) :: rest =>
  let r := updateFirst p f ms
  if r.2 then ((k, r.1) :: rest, true)
  else
    let r' := updateFirstInHistory p f rest
    ((k, ms) :: r'.1, r'.2)

/-- Mark every `Sending` message `FailedToSend` across all histories
(the shared loop in the `Logout` and `Disconnected` arms). -/
def markSendingFailed (hist : List (Nat × List ChatMessage)) :
    List (Nat × List ChatMessage) :=
  hist.map (fun p =>
    (p.1, p.2.map (fun m =>
      if m.status = .sending then { m with status := .failedToSend } else m)))

/-- Whitespace test standing in for Rust `char::is_whitespace` (the ASCII
whitespace characters; the claims only ever trim ASCII input). -/
def isWs (c : Char) : Bool :=
  c = ' ' ∨ c = '\t' ∨ c = '\n' ∨ c = '\r'

/-- Rust `str::trim`: the string without leading and trailing whitespace. -/
def strTrim (s : String) : String :=
  ⟨((s.toList.dropWhile isWs).reverse.dropWhile isWs).reverse⟩

/-- Rust `String::insert(i, c)` (char-position model); aborts when the
index is past the end. -/
def strInsert (s : String) (i : Nat) (c : Char) : Option String :=
  if i ≤ s.length then some ⟨s.toList.insertIdx i c⟩ else none

/-- Rust `String::remove(i)` (char-position model); aborts when the index
is past the end. -/
def strRemove (s : String) (i : Nat) : Option String :=
  if i < s.length then some ⟨s.toList.eraseIdx i⟩ else none

/-- The `InputLeftTab` jump (chat/mod.rs lines 115-134): on `line ++ " "`,
take the first `i` indexed characters, scan backwards past non-spaces, and
land on the first space index found (defaulting to 0). -/
def leftTabIndex (line : String) (i : Nat) : Nat :=
  (((((line ++ " ").toList.enum.take i).reverse.dropWhile
      (fun p => p.2 ≠ ' ')).head?.map (·.1)).getD 0)

/-- The `InputRightTab` jump (chat/mod.rs lines 135-151): on `line ++ " "`,
drop the first `i + 1` indexed characters, scan past non-spaces, and land on
the first space index found.  The default is the length of the
`chat_inputs` map (so in the source, not of the input line). -/
def rightTabIndex (line : String) (i : Nat) (inputsLen : Nat) : Nat :=
  ((((line ++ " ").toList.enum.drop (i + 1)).dropWhile
      (fun p => p.2 ≠ ' ')).head?.map (·.1)).getD inputsLen

/-- Replace the current state with a chat state. -/
def TuiState.setChat (t : TuiState) (c : ChatState) : TuiState :=
  { t with currentState := .chat c }

/-- Replace the current state with a login state. -/
def TuiState.setLogin (t : TuiState) (l : LoginState) : TuiState :=
  { t with currentState := .login l }

/-- The `Channels` arm loop (chat/mod.rs lines 278-288): for each channel,
initialise its input line, append it to the channel list, then request the
last 50 messages anchored at the current time. -/
def addChannels (now : Nat) : ChatState → List ClientCall → List Channel →
    ChatState × List ClientCall
| c, calls, [] => (c, calls)
| c, calls, ch :: rest =>
  addChannels now
    { c with
      chatInputs := ainsert c.chatInputs ch.channelId "",
      channels := c.channels ++ [DisplayChannel.ofChannel ch] }
    (calls ++ [.requestHistoryByTimestamp ch.channelId now 50]) rest

/-- The `UserStatusesUpdate` arm loop (chat/mod.rs lines 289-308): apply each
status update to the first matching user; ids with no matching user are
collected in order. -/
def applyStatusUpdates (users : List User) :
    List (Nat × UserStatus) → List User × List Nat
| [] => (users, [])
| (uid, st) :: rest =>
  let r := updateFirst (fun u => u.id == uid) (fun u => { u with status := st }) users
  let rr := applyStatusUpdates r.1 rest
  (rr.1, if r.2 then rr.2 else uid :: rr.2)

/-- `HashMap::remove` on the association-list model. -/
def aremove (m : List (Nat × β)) (k : Nat) : Option β × List (Nat × β) :=
  match m with
  | [] => (none, [])
  | p :: rest =>
    if p.1 == k then (some p.2, rest)
    else
      let r := aremove rest k
      (r.1, p :: r.2)

/-- The map built by the `Users` arm (chat/mod.rs lines 317-327): drain the
converted user list into an id-keyed map. -/
def buildUserMap (us : List User) : List (Nat × User) :=
  us.foldl (fun m u => ainsert m u.id u) []

/-- The `Users` arm merge loop (chat/mod.rs lines 329-335): refresh the
status of each existing user found in the map, removing it; the leftovers of
the map are returned for `users.extend`. -/
def mergeUsers : List User → List (Nat × User) → List User × List (Nat × User)
| [], m => ([], m)
| u :: rest, m =>
  let r := aremove m u.id
  match r.1 with
  | some nu =>
    let rr := mergeUsers rest r.2
    ({ u with status := nu.status } :: rr.1, rr.2)
  | none =>
    let rr := mergeUsers rest r.2
    (u :: rr.1, rr.2)

/-- Guard for `DateTime::from_timestamp(ts as i64, 0)` in the
`HistoryUpdate` arm: the `u64 → i64` cast makes values at or above `2 ^ 63`
negative and the conversion fail there (chrono's additional year bound is
not modelled; no claim depends on it). -/
def dateTimeOk (ts : Nat) : Bool := ts < 2 ^ 63

/-- The `HistoryUpdate` arm loop (chat/mod.rs lines 337-365): look up the
author name (falling back to the literal Unknown), convert the timestamp,
and append to the channel history unless a message with the same id is
already present there.  A failing timestamp conversion is the `?` early
return: the messages already processed stay applied. -/
def applyHistory (c : ChatState) : List HistoryMessage → ChatState
| [] => c
| m :: rest =>
  if dateTimeOk m.sentTimestamp then
    let authorName :=
      ((c.users.find? (fun u => u.id == m.userId)).map (·.name)).getD "Unknown"
    let dm : ChatMessage :=
      ⟨m.messageId, m.replyId, authorName, m.userId, m.sentTimestamp, m.messageText, .send⟩
    applyHistory
      { c with
        chatHistory :=
          aentryModify c.chatHistory m.channelId []
            (fun ms =>
              if ms.any (fun x => x.messageId == dm.messageId) then ms else ms ++ [dm]) }
      rest
  else c

/-- The `Typing(false)` withdrawal the `Logout` arm sends when the local
user is typing in an existing active channel (chat/mod.rs lines 369-373). -/
def logoutTypingCalls (c : ChatState) : List ClientCall :=
  match c.channels.get? c.activeChannelIdx with
  | some ch => if c.isTyping then [ClientCall.sendTyping ch.id false] else []
  | none => []

/-- `handle_chat_event` (tui/screens/chat/mod.rs lines 60-484) as a pure
transformer.  `none` marks a Rust abort: the non-chat entry assertion, the
division by a zero channel count in `ChannelDown`, a string index out of
bounds, or the unimplemented `MessageMediaAck`/`Media` arms. -/
def handleChatEvent (now : Nat) (t : TuiState) (e : TuiEvent) :
    Option (TuiState × List ClientCall) :=
  match t.currentState with
  | .login _ => none
  | .chat c =>
    match e with
    | .exit =>
        some ({ t with globalState := { t.globalState with shouldQuit := true } },
              [.sendUserStatus .offline])
    | .toggleLogs =>
        some ({ t.setChat { c with focus := .chatHistory } with
                globalState := { t.globalState with showLogs := !t.globalState.showLogs } },
              [])
    | .log entry =>
        some ({ t with
                globalState := { t.globalState with logs := t.globalState.logs ++ [entry] } },
              [])
    | .channelUp =>
        let idx := if c.activeChannelIdx = 0 then c.channels.length - 1
                   else c.activeChannelIdx - 1
        let calls := match c.channels.get? idx with
          | some ch => if c.isTyping then [ClientCall.sendTyping ch.id false] else []
          | none => []
        some (t.setChat { c with activeChannelIdx := idx }, calls)
    | .channelDown =>
        if c.channels.length = 0 then none
        else
          let idx := (c.activeChannelIdx + 1) % c.channels.length
          let calls := match c.channels.get? idx with
            | some ch => if c.isTyping then [ClientCall.sendTyping ch.id false] else []
            | none => []
          some (t.setChat { c with activeChannelIdx := idx }, calls)
    | .chatFocusChange f => some (t.setChat { c with focus := f }, [])
    | .inputLeft =>
        match c.focus with
        | .chatInput i =>
            if 0 < i then some (t.setChat { c with focus := .chatInput (i - 1) }, [])
            else some (t, [])
        | _ => some (t, [])
    | .inputRight =>
        match c.focus, c.channels.get? c.activeChannelIdx with
        | .chatInput i, some ch =>
            match alookup c.chatInputs ch.id with
            | some line =>
                if i < line.length then
                  some (t.setChat { c with focus := .chatInput (i + 1) }, [])
                else some (t, [])
            | none => some (t, [])
        | _, _ => some (t, [])
    | .inputLeftTab =>
        match c.focus, c.channels.get? c.activeChannelIdx with
        | .chatInput i, some ch =>
            if 0 < i then
              match alookup c.chatInputs ch.id with
              | some line =>
                  some (t.setChat { c with focus := .chatInput (leftTabIndex line i) }, [])
              | none => some (t, [])
            else some (t, [])
        | _, _ => some (t, [])
    | .inputRightTab =>
        match c.focus, c.channels.get? c.activeChannelIdx with
        | .chatInput i, some ch =>
            match alookup c.chatInputs ch.id with
            | some line =>
                if i < line.length then
                  some (t.setChat
                    { c with focus := .chatInput (rightTabIndex line i c.chatInputs.length) },
                    [])
                else some (t, [])
            | none => some (t, [])
        | _, _ => some (t, [])
    | .inputDelete =>
        match c.focus, c.channels.get? c.activeChannelIdx with
        | .chatInput i, some ch =>
            if 0 < i then
              match alookup c.chatInputs ch.id with
              | some line =>
                  match strRemove line (i - 1) with
                  | some line' =>
                      some (t.setChat
                        { c with
                          chatInputs := ainsert c.chatInputs ch.id line',
                          focus := .chatInput (i - 1) }, [])
                  | none => none
              | none => some (t, [])
            else some (t, [])
        | _, _ => some (t, [])
    | .messageSend =>
        match c.channels.get? c.activeChannelIdx with
        | some channel =>
            match alookup c.chatInputs channel.id with
            | some line =>
                if strTrim line = "" then some (t, [])
                else
                  let replyId := match c.replyingTo with
                    | some m => m.messageId
                    | none => 0
                  let tempId := c.incrementingAckId
                  let msg : ChatMessage :=
                    { messageId := tempId
                      replyId := replyId
                      authorName := c.currentUser.username
                      authorId := c.currentUser.userId
                      timestamp := now
                      message := line
                      status := .sending }
                  some (t.setChat
                    { c with
                      waitingMessageAcksId := c.waitingMessageAcksId ++ [tempId],
                      incrementingAckId := c.incrementingAckId + 1,
                      chatHistory :=
                        aentryModify c.chatHistory channel.id [] (fun ms => ms ++ [msg]),
                      replyingTo := none,
                      focus := .chatInput 0,
                      chatInputs := ainsert c.chatInputs channel.id "" },
                    [.sendChatMessage channel.id replyId line []])
            | none => some (t, [])
        | none => some (t, [])
    | .messageSendAck serverId =>
        match c.waitingMessageAcksId.getLast? with
        | none => some (t, [])
        | some tempId =>
            let fifo := c.waitingMessageAcksId.dropLast
            let r := updateFirstInHistory (fun m => m.messageId == tempId)
              (fun m => { m with status := .send, messageId := serverId }) c.chatHistory
            if r.2 then
              some (t.setChat { c with chatHistory := r.1, waitingMessageAcksId := fifo }, [])
            else
              some (t.setChat { c with waitingMessageAcksId := tempId :: fifo }, [])
    | .scrollDown =>
        match c.focus with
        | .chatHistory =>
            some (t.setChat { c with chatScrollOffset := c.chatScrollOffset - 1 }, [])
        | .chatHistorySelection =>
            match c.channels.get? c.activeChannelIdx with
            | some channel =>
                match alookup c.chatHistory channel.id with
                | some chatlog =>
                    let maxSelection := chatlog.length - (c.chatScrollOffset + 1)
                    if channel.selectionOffset < maxSelection then
                      let ch' := { channel with selectionOffset := channel.selectionOffset + 1 }
                      some (t.setChat
                        { c with channels := c.channels.set c.activeChannelIdx ch' }, [])
                    else some (t, [])
                | none => some (t, [])
            | none => some (t, [])
        | .logs =>
            some ({ t with globalState :=
                { t.globalState with
                  logScrollOffset := t.globalState.logScrollOffset - 1 } }, [])
        | .users i =>
            if i + 2 < c.users.length then
              some (t.setChat { c with focus := .users (i + 1) }, [])
            else some (t, [])
        | _ => some (t, [])
    | .scrollUp =>
        match c.focus with
        | .chatHistory =>
            some (t.setChat { c with chatScrollOffset := c.chatScrollOffset + 1 }, [])
        | .chatHistorySelection =>
            match c.channels.get? c.activeChannelIdx with
            | some channel =>
                let ch' := { channel with selectionOffset := channel.selectionOffset - 1 }
                some (t.setChat
                  { c with channels := c.channels.set c.activeChannelIdx ch' }, [])
            | none => some (t, [])
        | .logs =>
            some ({ t with globalState :=
                { t.globalState with
                  logScrollOffset := t.globalState.logScrollOffset + 1 } }, [])
        | .users i =>
            if 0 < i then some (t.setChat { c with focus := .users (i - 1) }, [])
            else some (t, [])
        | _ => some (t, [])
    | .inputChar chr =>
        match c.focus, c.channels.get? c.activeChannelIdx with
        | .chatInput i, some ch =>
            match alookup c.chatInputs ch.id with
            | some line =>
                match strInsert line i chr with
                | some line' =>
                    let c' := { c with
                      chatInputs := ainsert c.chatInputs ch.id line',
                      focus := .chatInput (i + 1),
                      timeSinceLastTyping := now }
                    if c.isTyping then some (t.setChat c', [])
                    else
                      some (t.setChat { c' with isTyping := true }, [.sendTyping ch.id true])
                | none => none
            | none => some (t, [])
        | _, _ => some (t, [])
    | .channelIDs ids =>
        if ids.isEmpty then some (t, [])
        else some (t, [.requestChannels ids])
    | .healthCheckRecv => some (t, [.sendHealthcheck, .requestUserStatuses])
    | .channels cs =>
        let r := addChannels now c [] cs
        some (t.setChat r.1, r.2)
    | .userStatusesUpdate us =>
        let r := applyStatusUpdates c.users us
        some (t.setChat { c with users := r.1 },
              if r.2.isEmpty then [] else [.requestUsers r.2])
    | .userStatusUpdate uid st =>
        let r := updateFirst (fun u => u.id == uid) (fun u => { u with status := st }) c.users
        some (t.setChat { c with users := r.1 }, [])
    | .users us =>
        let newUsers := us.map (fun u => User.mk u.userId u.username u.status)
        let r := mergeUsers c.users (buildUserMap newUsers)
        some (t.setChat { c with users := r.1 ++ r.2.map (·.2) }, [])
    | .historyUpdate ms =>
        some (t.setChat (applyHistory c ms), [])
    | .logout =>
        match slookup t.stateMap .login with
        | some loginState =>
            let c' := { c with
              chatHistory := markSendingFailed c.chatHistory,
              waitingMessageAcksId := [] }
            let key := Screen.chat (strTrim c'.currentUser.username)
              (strTrim c'.currentUser.password) c'.serverAddress
            some ({ t with
                    currentState := loginState,
                    stateMap := sinsert t.stateMap key (.chat c'),
                    clientStatus := .disconnected },
                  logoutTypingCalls c ++ [.disconnect])
        | none =>
            some ({ t with globalState := { t.globalState with shouldQuit := true } }, [])
    | .messageMediaAck _ => none
    | .media _ => none
    | .typing channelId uid flag =>
        match c.users.find? (fun u => u.id == uid) with
        | some user =>
            let f := fun m => if flag then ainsert m uid user.name else (aremove m uid).2
            some (t.setChat
              { c with usersTyping := aentryModify c.usersTyping channelId [] f }, [])
        | none => some (t, [])
    | .typingExpired =>
        let c' := { c with isTyping := false }
        match c.channels.get? c.activeChannelIdx with
        | some ch => some (t.setChat c', [.sendTyping ch.id false])
        | none => some (t.setChat c', [])
    | .possiblyUnhealthyConnection =>
        some ({ t.setChat { c with serverConnectionStatus := .unhealthy } with
                clientStatus := .unhealthy }, [])
    | .reconnect =>
        some ({ t.setChat { c with serverConnectionStatus := .connected } with
                clientStatus := .connected },
              [.reconnect c.serverAddress c.currentUser.username c.currentUser.password])
    | .disconnected =>
        if c.serverConnectionStatus ≠ .reconnecting then
          some ({ t.setChat
              { c with
                chatHistory := markSendingFailed c.chatHistory,
                waitingMessageAcksId := [],
                serverConnectionStatus := .reconnecting } with
              clientStatus := .disconnected },
            [.disconnect])
        else some (t, [])
    | .focusGained =>
        some (t.setChat
          { c with
            timeSinceLastFocused := none,
            currentUser := { c.currentUser with status := .online } },
          [.sendUserStatus .online])
    | .focusLost =>
        some (t.setChat { c with timeSinceLastFocused := some now }, [])
    | .idleUser =>
        some (t.setChat { c with currentUser := { c.currentUser with status := .idle } },
              [.sendUserStatus .idle])
    | .reply =>
        match c.channels.get? c.activeChannelIdx with
        | some channel =>
            match alookup c.chatHistory channel.id with
            | some chatlog =>
                match chatlog.get? (c.chatScrollOffset + channel.selectionOffset) with
                | some message =>
                    let r := match c.replyingTo with
                      | some rt => if message = rt then none else some message
                      | none => some message
                    some (t.setChat { c with replyingTo := r }, [])
                | none => some (t.setChat { c with replyingTo := none }, [])
            | none => some (t.setChat { c with replyingTo := none }, [])
        | none => some (t.setChat { c with replyingTo := none }, [])
    | _ => some (t, [])

/-- The fresh `ChatState` built by the `LoginSuccess` arm
(tui/screens/login/mod.rs lines 230-253). -/
def freshChatState (now userId : Nat) (l : LoginState) (addr : String) : ChatState :=
  { focus := .channels
    channels := []
    users := []
    chatHistory := []
    chatInputs := []
    activeChannelIdx := 0
    currentUser :=
      { userId := userId
        status := .online
        username := l.usernameInput
        password := l.passwordInput }
    chatScrollOffset := 0
    replyingTo := none
    serverConnectionStatus := .connected
    serverAddress := addr
    waitingMessageAcksId := []
    incrementingAckId := 100000
    usersTyping := []
    isTyping := false
    timeSinceLastTyping := now
    timeSinceLastFocused := none }

/-- `handle_login_event` (tui/screens/login/mod.rs lines 54-275) as a pure
transformer.  `none` marks a Rust abort (non-login entry assertion, string
index out of bounds, or the declared-unreachable `LoginSuccess` branch with
no parsed server address); the `Login` arm performs DNS resolution and the
TCP/TLS dial and is outside the pure embedding, so it is left undefined as
well. -/
def handleLoginEvent (now : Nat) (t : TuiState) (e : TuiEvent) :
    Option (TuiState × List ClientCall) :=
  match t.currentState with
  | .chat _ => none
  | .login l =>
    match e with
    | .loginFocusChange f => some (t.setLogin { l with focus := f }, [])
    | .inputChar chr =>
        match l.focus with
        | .usernameInput i =>
            if i < 129 then
              match strInsert l.usernameInput i chr with
              | some s =>
                  some (t.setLogin
                    { l with
                      usernameInput := s,
                      focus := .usernameInput (i + 1),
                      inputStatus := .allFine }, [])
              | none => none
            else some (t, [])
        | .passwordInput i =>
            if i < 1025 then
              match strInsert l.passwordInput i chr with
              | some s =>
                  some (t.setLogin
                    { l with
                      passwordInput := s,
                      focus := .passwordInput (i + 1),
                      inputStatus := .allFine }, [])
              | none => none
            else some (t, [])
        | .serverAddressInput i =>
            if i < 64 then
              match strInsert l.serverAddressInput i chr with
              | some s =>
                  some (t.setLogin
                    { l with
                      serverAddressInput := s,
                      focus := .serverAddressInput (i + 1),
                      inputStatus := .allFine }, [])
              | none => none
            else some (t, [])
        | _ => some (t, [])
    | .inputDelete =>
        match l.focus with
        | .usernameInput i =>
            if 0 < i then
              match strRemove l.usernameInput (i - 1) with
              | some s =>
                  some (t.setLogin
                    { l with
                      usernameInput := s,
                      focus := .usernameInput (i - 1),
                      inputStatus := .allFine }, [])
              | none => none
            else some (t, [])
        | .passwordInput i =>
            if 0 < i then
              match strRemove l.passwordInput (i - 1) with
              | some s =>
                  some (t.setLogin
                    { l with
                      passwordInput := s,
                      focus := .passwordInput (i - 1),
                      inputStatus := .allFine }, [])
              | none => none
            else some (t, [])
        | .serverAddressInput i =>
            if 0 < i then
              match strRemove l.serverAddressInput (i - 1) with
              | some s =>
                  some (t.setLogin
                    { l with
                      serverAddressInput := s,
                      focus := .serverAddressInput (i - 1),
                      inputStatus := .allFine }, [])
              | none => none
            else some (t, [])
        | _ => some (t, [])
    | .inputLeft =>
        match l.focus with
        | .usernameInput i =>
            if 0 < i then some (t.setLogin { l with focus := .usernameInput (i - 1) }, [])
            else some (t, [])
        | .passwordInput i =>
            if 0 < i then some (t.setLogin { l with focus := .passwordInput (i - 1) }, [])
            else some (t, [])
        | .serverAddressInput i =>
            if 0 < i then
              some (t.setLogin { l with focus := .serverAddressInput (i - 1) }, [])
            else some (t, [])
        | _ => some (t, [])
    | .inputRight =>
        match l.focus with
        | .usernameInput i =>
            if i < l.usernameInput.length then
              some (t.setLogin { l with focus := .usernameInput (i + 1) }, [])
            else some (t, [])
        | .passwordInput i =>
            if i < l.passwordInput.length then
              some (t.setLogin { l with focus := .passwordInput (i + 1) }, [])
            else some (t, [])
        | .serverAddressInput i =>
            if i < l.serverAddressInput.length then
              some (t.setLogin { l with focus := .serverAddressInput (i + 1) }, [])
            else some (t, [])
        | _ => some (t, [])
    | .inputLeftTab =>
        match l.focus with
        | .usernameInput _ => some (t.setLogin { l with focus := .usernameInput 0 }, [])
        | .passwordInput _ => some (t.setLogin { l with focus := .passwordInput 0 }, [])
        | .serverAddressInput _ =>
            some (t.setLogin { l with focus := .serverAddressInput 0 }, [])
        | _ => some (t, [])
    | .inputRightTab =>
        match l.focus with
        | .usernameInput _ =>
            some (t.setLogin { l with focus := .usernameInput l.usernameInput.length }, [])
        | .passwordInput _ =>
            some (t.setLogin { l with focus := .passwordInput l.passwordInput.length }, [])
        | .serverAddressInput _ =>
            some (t.setLogin
              { l with focus := .serverAddressInput l.serverAddressInput.length }, [])
        | _ => some (t, [])
    | .login => none
    | .loginSuccess userId =>
        match l.serverAddress with
        | none => none
        | some addr =>
            let l' := { l with inputStatus := InputStatus.allFine }
            let map₁ := sinsert t.stateMap .login (.login l')
            let key := Screen.chat l'.usernameInput l'.passwordInput addr
            match slookup map₁ key with
            | some cached =>
                some ({ t with currentState := cached, stateMap := map₁ }, [])
            | none =>
                some ({ t with
                        currentState := .chat (freshChatState now userId l' addr),
                        stateMap := map₁ },
                      [.requestChannelIds, .requestUserStatuses])
    | .loginFail reason =>
        let status := if reason = "Incorrect username or password." then
            InputStatus.incorrectUsernameOrPassword
          else InputStatus.failedToLogin
        some ({ t.setLogin { l with inputStatus := status } with
                clientStatus := .disconnected },
              [.disconnect])
    | .toggleLogs =>
        some ({ t with
                globalState := { t.globalState with showLogs := !t.globalState.showLogs } },
              [])
    | .log entry =>
        some ({ t with
                globalState := { t.globalState with logs := t.globalState.logs ++ [entry] } },
              [])
    | .exit =>
        some ({ t with globalState := { t.globalState with shouldQuit := true } }, [])
    | _ => some (t, [])

/-! ### Tick driver (`tui/screens/mod.rs`, `State::on_tick`) -/

/-- The state read and written by `State::on_tick` while in Chat mode:
the chat fields `is_typing`, `time_since_last_typing` and
`time_since_last_focused`, and the `Client` fields `connection_status`,
`time_since_last_transmit` and `time_since_last_reconnect`.  Timestamps are
absolute milliseconds; `elapsed` is a saturating difference against `now`. -/
structure TickState where
  isTyping : Bool
  lastTyping : Nat
  lastFocused : Option Nat
  connectionStatus : ServerConnectionStatus
  lastTransmit : Nat
  lastReconnect : Nat
deriving DecidableEq, Repr

/-- Events `on_tick` can emit onto the bus. -/
inductive TickEvent
| typingExpired
| possiblyUnhealthyConnection
| reconnect
| idleUser
deriving DecidableEq, Repr

/-- `State::on_tick` (tui/screens/mod.rs lines 92-119), Chat mode branch:
emit `TypingExpired` after 2 s of typing silence; emit
`PossiblyUnhealthyConnection` after 10 s of transmit silence while
`Connected`; when (15 s of transmit silence, or `Disconnected`, or
`Reconnecting`) and more than 5 s since the last reconnect attempt, update
the last-reconnect timestamp and emit `Reconnect`; emit `IdleUser` and clear
the focus-lost timestamp after 60 s without focus. -/
def onTick (now : Nat) (s : TickState) : List TickEvent × TickState :=
  let evs₁ := if s.isTyping ∧ 2000 < now - s.lastTyping then
      [TickEvent.typingExpired] else []
  let connectionElapsed := now - s.lastTransmit
  let evs₂ := if 10000 < connectionElapsed ∧ s.connectionStatus = .connected then
      [TickEvent.possiblyUnhealthyConnection] else []
  let reconnectFires :=
    (15000 < connectionElapsed ∨ s.connectionStatus = .disconnected ∨
      s.connectionStatus = .reconnecting) ∧ 5000 < now - s.lastReconnect
  let s₁ := if reconnectFires then { s with lastReconnect := now } else s
  let evs₃ := if reconnectFires then [TickEvent.reconnect] else []
  match s.lastFocused with
  | some time =>
      if 60000 < now - time then
        (evs₁ ++ evs₂ ++ evs₃ ++ [TickEvent.idleUser], { s₁ with lastFocused := none })
      else (evs₁ ++ evs₂ ++ evs₃, s₁)
  | none => (evs₁ ++ evs₂ ++ evs₃, s₁)

/-- Serial event consumption: the main loop feeds events to the update
function one at a time (tui/framework.rs lines 97-127); a handler error is
logged and the loop continues with the state as mutated so far, which the
pure model already reflects, so only aborts stop the run. -/
def stepEvents (now : Nat) : TuiState → List TuiEvent → Option TuiState
| t, [] => some t
| t, e :: rest =>
  match handleChatEvent now t e with
  | some (t', _) => stepEvents now t' rest
  | none => none

/-- The message ids of the `Sending`-status messages of one history list. -/
def msgSendingIds (ms : List ChatMessage) : List Nat :=
  (ms.filter (fun m => m.status == ChatMessageStatus.sending)).map (·.messageId)

/-- The message ids of the `Sending`-status display messages, across all
channel histories in iteration order. -/
def sendingIds (c : ChatState) : List Nat :=
  c.chatHistory.flatMap (fun p => msgSendingIds p.2)

/-- The pending-ack invariant: the set of `Sending` message ids equals the
set of ids in the pending-ack FIFO. -/
def ackInv (c : ChatState) : Prop :=
  ∀ i : Nat, i ∈ sendingIds c ↔ i ∈ c.waitingMessageAcksId

/-- The pending-ack invariant over a whole `TuiState`: it holds for the
current chat state (when in Chat mode) and for every chat state cached in
the state map. -/
def ackInvT (t : TuiState) : Prop :=
  (∀ c, t.currentState = .chat c → ackInv c) ∧
  (∀ k c, (k, AppState.chat c) ∈ t.stateMap → ackInv c)

/-- All display messages of a chat state, in history iteration order. -/
def allMessages (c : ChatState) : List ChatMessage :=
  c.chatHistory.flatMap (·.2)

/-- Side condition under which a `MessageSendAck` keeps the pending-ack
invariant: the pending id the handler pops (the back of the queue) occurs
once in the queue, and exactly the messages carrying that id have status
`Sending`, of which there is at most one. -/
def ackPopSafe (c : ChatState) (e : TuiEvent) : Prop :=
  match e with
  | .messageSendAck _ =>
    match c.waitingMessageAcksId.getLast? with
    | some l =>
        (∀ m ∈ allMessages c, m.messageId = l → m.status = .sending) ∧
        (allMessages c).countP (fun m => m.messageId == l) ≤ 1 ∧
        c.waitingMessageAcksId.count l = 1
    | none => True
  | _ => True

end Chatger.Tui

namespace Chatger

open Chatger.Tui

/-! ### Demonstration states used by concrete-input theorems -/

/-- A concrete login state. -/
def demoLogin : LoginState :=
  ⟨"alice", "pw", "srv", some "srv", .loginButton, .allFine, false⟩

/-- A default global state. -/
def demoGlobal : GlobalState := ⟨[], 0, false, false⟩

/-- First-sent pending message (local id 100000). -/
def ackDemoMsgA : ChatMessage := ⟨100000, 0, "alice", 1, 10, "first", .sending⟩

/-- Second-sent pending message (local id 100001). -/
def ackDemoMsgB : ChatMessage := ⟨100001, 0, "alice", 1, 11, "second", .sending⟩

/-- A chat state with two messages awaiting acks, sent in id order: the
pending-ack FIFO holds 100000 (front, oldest) then 100001 (back, newest). -/
def ackDemoChat : ChatState :=
  { focus := .chatInput 0
    channels := [⟨7, "general", .read, 0⟩]
    users := []
    chatHistory := [(7, [ackDemoMsgA, ackDemoMsgB])]
    chatInputs := [(7, "")]
    activeChannelIdx := 0
    currentUser := ⟨1, "alice", "pw", .online⟩
    chatScrollOffset := 0
    serverAddress := "srv"
    serverConnectionStatus := .connected
    waitingMessageAcksId := [100000, 100001]
    incrementingAckId := 100002
    usersTyping := []
    isTyping := false
    timeSinceLastTyping := 0
    timeSinceLastFocused := none
    replyingTo := none }

/-- The demonstration state wrapping `ackDemoChat`. -/
def ackDemoState : TuiState := ⟨demoGlobal, .chat ackDemoChat, [], .connected⟩

/-- A chat state with no channels (as built for a fresh login session). -/
def emptyChannelsChat : ChatState := freshChatState 0 1 demoLogin "srv"

/-- The demonstration state wrapping `emptyChannelsChat`. -/
def emptyChannelsState : TuiState := ⟨demoGlobal, .chat emptyChannelsChat, [], .connected⟩

/-- Chat state for the channel-switch demonstration: two channels with ids
5 (active) and 9, local user typing. -/
def cexC6Chat : ChatState :=
  { ackDemoChat with
    channels := [⟨5, "a", .read, 0⟩, ⟨9, "b", .read, 0⟩],
    chatHistory := [], chatInputs := [(5, ""), (9, "")],
    waitingMessageAcksId := [], isTyping := true }

/-- The demonstration state wrapping `cexC6Chat`. -/
def cexC6State : TuiState := ⟨demoGlobal, .chat cexC6Chat, [], .connected⟩

/-- The reply id an outbound message carries: the current reply target's
message id, or 0 when there is no reply target. -/
def replyTargetId (c : ChatState) : Nat :=
  match c.replyingTo with
  | some m => m.messageId
  | none => 0

/-- Chat state for the C4 witness: one channel (id 7), input line `hi`,
nothing pending. -/
def sendDemoChat : ChatState :=
  { ackDemoChat with
    chatHistory := [], waitingMessageAcksId := [],
    chatInputs := [(7, "hi")], incrementingAckId := 100000 }

/-- The demonstration state wrapping `sendDemoChat`. -/
def sendDemoState : TuiState := ⟨demoGlobal, .chat sendDemoChat, [], .connected⟩

/-- Chat state for the C4 witness negative case: whitespace-only input. -/
def sendDemoChatWs : ChatState := { sendDemoChat with chatInputs := [(7, "  ")] }

/-- The demonstration state wrapping `sendDemoChatWs`. -/
def sendDemoStateWs : TuiState := ⟨demoGlobal, .chat sendDemoChatWs, [], .connected⟩

/-- Login state with a username carrying surrounding whitespace. -/
def cexC7Login : LoginState :=
  ⟨" bob ", "pw", "srv", some "srv", .loginButton, .allFine, false⟩

/-- Base chat state for the C7 demonstrations. -/
def cexC7ChatBase : ChatState := freshChatState 0 1 cexC7Login "srv"

/-- Chat state carrying session data (one channel, advanced ack counter)
whose user logged in as lit. `" bob "`. -/
def cexC7Chat : ChatState :=
  { cexC7ChatBase with channels := [⟨5, "a", .read, 0⟩], incrementingAckId := 100055 }

/-- The demonstration state wrapping `cexC7Chat`, with the Login state
cached. -/
def cexC7State : TuiState :=
  ⟨demoGlobal, .chat cexC7Chat, [(.login, .login cexC7Login)], .connected⟩

/-- The logout-then-relogin sequence on `cexC7State`. -/
def c7Seq : Option (TuiState × List ClientCall) :=
  match handleChatEvent 0 cexC7State .logout with
  | some (t₁, _) => handleLoginEvent 0 t₁ (.loginSuccess 1)
  | none => none

/-- Login state without surrounding whitespace for the C7 witness. -/
def restoreDemoLogin : LoginState :=
  ⟨"bob", "pw", "srv", some "srv", .loginButton, .allFine, false⟩

/-- Chat state with session data for the C7 witness. -/
def restoreDemoChat : ChatState :=
  { freshChatState 0 1 restoreDemoLogin "srv" with
    channels := [⟨5, "a", .read, 0⟩], incrementingAckId := 100055 }

/-- The demonstration state wrapping `restoreDemoChat`. -/
def restoreDemoState : TuiState :=
  ⟨demoGlobal, .chat restoreDemoChat, [(.login, .login restoreDemoLogin)], .connected⟩

/-- Starting state for the C2 counterexample run: the fresh chat state a
successful login constructs. -/
def cexC2Start : TuiState :=
  ⟨demoGlobal, .chat (freshChatState 0 1 demoLogin "srv"), [(.login, .login demoLogin)],
    .connected⟩

/-- The C2 counterexample event sequence: learn channel 1, focus the input,
receive a deduplicated history message whose server id collides with the
first local ack id 100000, type one character, and send. -/
def cexC2Events : List TuiEvent :=
  [.channels [⟨1, "g", 0⟩], .chatFocusChange (.chatInput 0),
   .historyUpdate [⟨100000, 3, 9, 1, 0, "old", []⟩], .inputChar 'h', .messageSend]

/-- Run a C2 event list from the starting state and report the pair
(sending ids, pending-ack queue) of the resulting chat state. -/
def cexC2Run (es : List TuiEvent) : Option (List Nat × List Nat) :=
  (stepEvents 5 cexC2Start es).map (fun t =>
    match t.currentState with
    | AppState.chat c => (sendingIds c, c.waitingMessageAcksId)
    | _ => ([], []))

/-- A concrete tick state for the C9 witness: disconnected, all timestamps
at 0. -/
def demoTick : TickState := ⟨false, 0, none, .disconnected, 0, 0⟩

/-- C1: with two pending ids `[100000, 100001]` (oldest first), the
`MessageSendAck(42)` arm pops the queue with `pop_back` and therefore takes
100001, the newest pending id, updating the second message — while the
claim (and the FIFO discipline the spec states) requires popping the oldest,
100000, and updating the first message.  The theorem evaluates the embedded
handler at this failing input. -/

theorem c1_ack_pops_newest_not_oldest :
    handleChatEvent 0 ackDemoState (.messageSendAck 42) =
      some (ackDemoState.setChat
        { ackDemoChat with
          chatHistory :=
            [(7, [ackDemoMsgA, { ackDemoMsgB with messageId := 42, status := .send }])],
          waitingMessageAcksId := [100000] }, []) ∧
    ackDemoChat.waitingMessageAcksId.head? = some 100000 := by
  exact ⟨rfl, rfl⟩

/-- C8: `Anchor::MessageId(1)` serializes to the plain big-endian encoding
`00 .. 00 01` with the most significant bit clear, although the wire-format
comment in the source (and the spec) require the MSB flag to be set for a
message-id anchor; indeed both anchor variants serialize identically, so the
flag distinguishing them is lost. -/

theorem c8_messageId_anchor_msb_clear :
    Proto.Anchor.serialize (.messageId 1) = [0, 0, 0, 0, 0, 0, 0, 1] ∧
    (∀ v : Nat, Proto.Anchor.serialize (.messageId v) =
      Proto.Anchor.serialize (.timestamp v)) := by
  exact ⟨by decide, fun v => rfl⟩

/-- C10: in Chat mode with an empty channel list (and the default active
index 0), `ChannelDown` computes `(idx + 1) % 0` and aborts, while
`ChannelUp` saturates and leaves the index at 0. -/

theorem c10_channelDown_empty_aborts :
    ∀ (now : Nat) (t : TuiState) (c : ChatState),
      t.currentState = .chat c → c.channels = [] → c.activeChannelIdx = 0 →
      handleChatEvent now t .channelDown = none ∧
      handleChatEvent now t .channelUp =
        some (t.setChat { c with activeChannelIdx := 0 }, []) := by
  intro now t c hcur hch hidx
  constructor <;> simp [handleChatEvent, hcur, hch, hidx]

/-- Witness for `c10_channelDown_empty_aborts` at a concrete state. -/

theorem c10_witness :
    handleChatEvent 0 emptyChannelsState .channelDown = none ∧
    handleChatEvent 0 emptyChannelsState .channelUp =
      some (emptyChannelsState.setChat { emptyChannelsChat with activeChannelIdx := 0 }, []) :=
  c10_channelDown_empty_aborts 0 emptyChannelsState emptyChannelsChat rfl rfl rfl

/-- C6 counterexample: switching from active channel 5 (index 0) to channel
9 with `ChannelDown` while typing sends `Typing(false)` for channel 9 — the
newly selected channel — although the claim says the packet targets the old
channel 5. -/

theorem c6_counterexample :
    (handleChatEvent 0 cexC6State .channelDown).map (·.2) =
      some [.sendTyping 9 false] ∧
    (cexC6Chat.channels.get? cexC6Chat.activeChannelIdx).map (·.id) = some 5 := by
  exact ⟨rfl, rfl⟩

/-- C6 as amended: with at least two channels and an in-range index,
`ChannelDown`/`ChannelUp` cycle the active index modulo the channel count,
and when `is_typing` is set the `Typing(false)` packet is sent for the
newly selected channel (the index is updated before the channel lookup). -/

theorem c6_channel_cycle_typing_targets_new_channel :
    ∀ (now : Nat) (t : TuiState) (c : ChatState) (ch' : DisplayChannel),
      t.currentState = .chat c →
      c.activeChannelIdx < c.channels.length → 2 ≤ c.channels.length →
      (c.channels.get? ((c.activeChannelIdx + 1) % c.channels.length) = some ch' →
        handleChatEvent now t .channelDown =
          some (t.setChat
              { c with activeChannelIdx := (c.activeChannelIdx + 1) % c.channels.length },
            if c.isTyping then [.sendTyping ch'.id false] else [])) ∧
      (c.channels.get?
          ((c.activeChannelIdx + c.channels.length - 1) % c.channels.length) = some ch' →
        handleChatEvent now t .channelUp =
          some (t.setChat
              { c with activeChannelIdx :=
                  (c.activeChannelIdx + c.channels.length - 1) % c.channels.length },
            if c.isTyping then [.sendTyping ch'.id false] else [])) := by
  intro now t c ch' hcur hidx hlen
  have hlen0 : c.channels.length ≠ 0 := by omega
  constructor
  · intro hget
    simp only [List.get?_eq_getElem?] at hget
    simp [handleChatEvent, hcur, hlen0, hget]
  · intro hget
    have hup : (if c.activeChannelIdx = 0 then c.channels.length - 1
        else c.activeChannelIdx - 1) =
        (c.activeChannelIdx + c.channels.length - 1) % c.channels.length := by
      rcases Nat.eq_zero_or_pos c.activeChannelIdx with h0 | h0
      · rw [if_pos h0, h0]
        simp [Nat.mod_eq_of_lt (show c.channels.length - 1 < c.channels.length by omega)]
      · rw [if_neg (by omega)]
        have h1 : c.activeChannelIdx + c.channels.length - 1 =
            (c.activeChannelIdx - 1) + c.channels.length := by omega
        rw [h1, Nat.add_mod_right,
          Nat.mod_eq_of_lt (show c.activeChannelIdx - 1 < c.channels.length by omega)]
    simp only [List.get?_eq_getElem?] at hget
    simp [handleChatEvent, hcur, hup, hget]

/-- Witness for `c6_channel_cycle_typing_targets_new_channel` at the
concrete two-channel state. -/

theorem c6_witness :
    handleChatEvent 0 cexC6State .channelDown =
      some (cexC6State.setChat
          { cexC6Chat with activeChannelIdx :=
              (cexC6Chat.activeChannelIdx + 1) % cexC6Chat.channels.length },
        if cexC6Chat.isTyping then [.sendTyping 9 false] else []) :=
  (c6_channel_cycle_typing_targets_new_channel 0 cexC6State cexC6Chat ⟨9, "b", .read, 0⟩
    rfl (by decide) (by decide)).1 (by decide)

/-! ### C4: the MessageSend arm -/

/-- `alookup` after `aentryModify` at the same key. -/

theorem alookup_aentryModify {β : Type} (m : List (Nat × β)) (k : Nat) (d : β) (f : β → β) :
    alookup (aentryModify m k d f) k = some (f ((alookup m k).getD d)) := by
  induction m with
  | nil => simp [alookup, aentryModify]
  | cons p rest ih =>
    by_cases hp : p.1 = k
    · simp [alookup, aentryModify, hp]
    · simp [alookup, aentryModify, hp, ih]

/-- `alookup` after `ainsert` at the same key. -/

theorem alookup_ainsert {β : Type} (m : List (Nat × β)) (k : Nat) (v : β) :
    alookup (ainsert m k v) k = some v := by
  induction m with
  | nil => simp [alookup, ainsert]
  | cons p rest ih =>
    by_cases hp : p.1 = k
    · simp [alookup, ainsert, hp]
    · simp [alookup, ainsert, hp, ih]

/-- C4: in Chat mode, when the active channel's input line is non-empty
after trimming, `MessageSend` appends a `Sending` display message whose id
is the current ack counter, pushes that id onto the pending-ack FIFO,
increments the counter, sends a `SendMessage` carrying the reply target's id
(0 when none), clears the reply target, resets focus to `ChatInput(0)`, and
empties the input line; when the trimmed line is empty, nothing is sent and
the state is unchanged. -/

theorem c4_message_send :
    (∀ (now : Nat) (t : TuiState) (c : ChatState) (ch : DisplayChannel) (line : String),
      t.currentState = .chat c →
      c.channels.get? c.activeChannelIdx = some ch →
      alookup c.chatInputs ch.id = some line →
      strTrim line ≠ "" →
      ∃ c' : ChatState,
        handleChatEvent now t .messageSend =
          some (t.setChat c', [.sendChatMessage ch.id (replyTargetId c) line []]) ∧
        alookup c'.chatHistory ch.id =
          some (((alookup c.chatHistory ch.id).getD []) ++
            [⟨c.incrementingAckId, replyTargetId c, c.currentUser.username,
              c.currentUser.userId, now, line, .sending⟩]) ∧
        c'.waitingMessageAcksId = c.waitingMessageAcksId ++ [c.incrementingAckId] ∧
        c'.incrementingAckId = c.incrementingAckId + 1 ∧
        c'.replyingTo = none ∧
        c'.focus = .chatInput 0 ∧
        alookup c'.chatInputs ch.id = some "") ∧
    (∀ (now : Nat) (t : TuiState) (c : ChatState) (ch : DisplayChannel) (line : String),
      t.currentState = .chat c →
      c.channels.get? c.activeChannelIdx = some ch →
      alookup c.chatInputs ch.id = some line →
      strTrim line = "" →
      handleChatEvent now t .messageSend = some (t, [])) := by
  constructor
  · intro now t c ch line hcur hch hline htrim
    refine ⟨{ c with
        waitingMessageAcksId := c.waitingMessageAcksId ++ [c.incrementingAckId],
        incrementingAckId := c.incrementingAckId + 1,
        chatHistory := aentryModify c.chatHistory ch.id []
          (fun ms => ms ++ [⟨c.incrementingAckId, replyTargetId c, c.currentUser.username,
            c.currentUser.userId, now, line, .sending⟩]),
        replyingTo := none,
        focus := .chatInput 0,
        chatInputs := ainsert c.chatInputs ch.id "" }, ?_, ?_, rfl, rfl, rfl, rfl, ?_⟩
    · simp only [handleChatEvent, hcur, hch, hline]
      rw [if_neg htrim]
      rfl
    · exact alookup_aentryModify c.chatHistory ch.id [] _
    · exact alookup_ainsert c.chatInputs ch.id ""
  · intro now t c ch line hcur hch hline htrim
    rw [List.get?_eq_getElem?] at hch
    simp [handleChatEvent, hcur, hch, hline, htrim]

/-- Witness for `c4_message_send` on the concrete states. -/

theorem c4_witness :
    (∃ c' : ChatState,
      handleChatEvent 5 sendDemoState .messageSend =
        some (sendDemoState.setChat c', [.sendChatMessage 7 0 "hi" []]) ∧
      alookup c'.chatHistory 7 = some [⟨100000, 0, "alice", 1, 5, "hi", .sending⟩] ∧
      c'.waitingMessageAcksId = [100000] ∧
      c'.incrementingAckId = 100001 ∧
      c'.replyingTo = none ∧
      c'.focus = .chatInput 0 ∧
      alookup c'.chatInputs 7 = some "") ∧
    handleChatEvent 5 sendDemoStateWs .messageSend = some (sendDemoStateWs, []) :=
  ⟨c4_message_send.1 5 sendDemoState sendDemoChat ⟨7, "general", .read, 0⟩ "hi"
      rfl rfl rfl (by decide),
   c4_message_send.2 5 sendDemoStateWs sendDemoChatWs ⟨7, "general", .read, 0⟩ "  "
      rfl rfl rfl (by decide)⟩

/-! ### C5: error-string consumption on reply frames -/

/-- An index found by `List.findIdx?` is in range. -/

theorem findIdx?_lt_length {p : Nat → Bool} {l : List Nat} {i : Nat}
    (h : l.findIdx? p = some i) : i < l.length := by
  rw [List.findIdx?_eq_some_iff_getElem] at h
  exact h.1

/-- C5 counterexample: with status `Failed` and the remaining frame bytes
`[0x41]` (no NUL), `deserialize_error` indexes `bytes[0..16384]` out of
bounds and aborts instead of reading to the frame end, refuting the claimed
totality; the same failure reaches a whole reply decoder
(`LoginAckPacket` on the frame `01 41`). -/

theorem c5_counterexample :
    Proto.deserializeError [65] .failed = .error .outOfBounds ∧
    Proto.LoginAckPacket.deserialize [1, 65] = .error .outOfBounds :=
  ⟨rfl, rfl⟩

/-- C5 as amended: the decoder consumes an error-message string from the
tail iff the status is `Failed`; when it does, the string's length is the
index of the first NUL byte, or `MAX_MESSAGE_LENGTH` (16384) when no NUL is
present — in which case decoding succeeds only when at least 16384 bytes
remain, and otherwise aborts on an out-of-range slice (it is not total on
the remaining frame bytes). -/

theorem c5_error_string_iff_failed :
    (∀ (bytes : List Nat) (status : Proto.ReturnStatus), status ≠ .failed →
      Proto.deserializeError bytes status = .ok (none, 0)) ∧
    (∀ (bytes : List Nat) (i : Nat), bytes.findIdx? (· = 0) = some i →
      Proto.deserializeError bytes .failed = .ok (some (bytes.take i), i)) ∧
    (∀ bytes : List Nat, bytes.findIdx? (· = 0) = none →
      MAX_MESSAGE_LENGTH ≤ bytes.length →
      Proto.deserializeError bytes .failed =
        .ok (some (bytes.take MAX_MESSAGE_LENGTH), MAX_MESSAGE_LENGTH)) ∧
    (∀ bytes : List Nat, bytes.findIdx? (· = 0) = none →
      bytes.length < MAX_MESSAGE_LENGTH →
      Proto.deserializeError bytes .failed = .error .outOfBounds) := by
  refine ⟨?_, ?_, ?_, ?_⟩
  · intro bytes status h
    simp [Proto.deserializeError, h]
  · intro bytes i h
    have hlt := findIdx?_lt_length h
    simp [Proto.deserializeError, Proto.stringDeserialize, h, Nat.le_of_lt hlt, Except.map]
  · intro bytes h hle
    simp [Proto.deserializeError, Proto.stringDeserialize, h, hle, Except.map]
  · intro bytes h hlt
    simp [Proto.deserializeError, Proto.stringDeserialize, h, Nat.not_le_of_lt hlt,
      Except.map]

/-- Witness for `c5_error_string_iff_failed` at concrete frames: a
NUL-terminated tail decodes to its prefix, and a 1-byte NUL-free tail
aborts. -/

theorem c5_witness :
    Proto.deserializeError [65, 0, 9] .failed = .ok (some [65], 1) ∧
    Proto.deserializeError [65] .failed = .error .outOfBounds :=
  ⟨c5_error_string_iff_failed.2.1 [65, 0, 9] 1 (by decide),
   c5_error_string_iff_failed.2.2.2 [65] (by decide) (by decide)⟩

/-! ### C3: frame round-trip -/

/-- Header decoding of a framed client packet stops at the type byte with a
direction error, before the length field or the payload is touched. -/

theorem header_deserialize_clientByte (tb L : Nat) (rest : List Nat)
    (h : Proto.PacketType.deserialize tb = .error .wrongDirection) :
    Proto.Header.deserialize (Proto.headerSerialize tb L ++ rest) =
      .error .wrongDirection := by
  have hb : Proto.headerSerialize tb L ++ rest =
      67 :: 72 :: 84 :: 71 :: 1 :: tb :: (u32be L ++ rest) := by
    simp [Proto.headerSerialize, List.cons_append, List.nil_append]
  rw [hb]
  have hlen : ¬ (67 :: 72 :: 84 :: 71 :: 1 :: tb :: (u32be L ++ rest)).length < 10 := by
    simp [u32be]
  rw [Proto.Header.deserialize, if_neg hlen, if_neg (by simp)]
  simp only [readU8, List.get?, bind, Except.bind, Proto.PacketVersion.deserialize, h]
  rfl

/-- Frame decoding of any frame whose type byte the direction check rejects
fails with that direction error. -/

theorem decodeFrame_clientFrame (tb L : Nat) (rest : List Nat)
    (h : Proto.PacketType.deserialize tb = .error .wrongDirection) :
    Proto.decodeFrame (Proto.headerSerialize tb L ++ rest) =
      .error .wrongDirection := by
  rw [Proto.decodeFrame, header_deserialize_clientByte tb L rest h]
  rfl

/-- Decoding any encoded client frame fails: the type byte has the
direction bit set and `PacketType::deserialize` refuses client-originated
packets on the receive path. -/

theorem decodeFrame_encodeFrame_fails (p : Proto.ClientPayload) :
    Proto.decodeFrame (Proto.encodeFrame p) = .error .wrongDirection := by
  cases p
  all_goals refine decodeFrame_clientFrame _ _ _ ?_
  all_goals simp [Proto.PacketType.deserialize, Proto.ClientPayload.typeByte]

/-- C3 counterexample: the round trip fails already for the empty
`ChannelsList` request — decoding its encoded frame yields a
direction error, not the value back with consumed length `10`. -/

theorem c3_counterexample :
    Proto.decodeFrame (Proto.encodeFrame .channelsList) = .error .wrongDirection :=
  rfl

/-- C3 as amended: the client's decoder rejects every encoded client frame
at the packet-type direction bit (the codec pair is asymmetric: client
payloads only serialize, server payloads only deserialize), so the claimed
frame round trip holds for no client payload; the only payload shape with
both directions is the health-check packet, whose payload-level round trip
does return the value with its 1-byte length. -/

theorem c3_roundtrip_only_healthcheck :
    (∀ p : Proto.ClientPayload,
      Proto.decodeFrame (Proto.encodeFrame p) = .error .wrongDirection) ∧
    (∀ h : Proto.HealthCheckPacket,
      Proto.HealthCheckPacket.deserialize (Proto.HealthCheckPacket.serialize h) =
        .ok (h, 1)) := by
  refine ⟨decodeFrame_encodeFrame_fails, ?_⟩
  intro h
  cases h with
  | mk kind => cases kind <;> rfl

/-! ### C7: logout caching and relogin restore -/

/-- `slookup` after `sinsert` at the same key. -/

theorem slookup_sinsert_self (m : List (Screen × AppState)) (k : Screen) (v : AppState) :
    slookup (sinsert m k v) k = some v := by
  induction m with
  | nil => simp [slookup, sinsert]
  | cons p rest ih =>
    by_cases hp : p.1 = k
    · simp [slookup, sinsert, hp]
    · simp [slookup, sinsert, hp, ih]

/-- `slookup` after `sinsert` at a different key. -/

theorem slookup_sinsert_ne (m : List (Screen × AppState)) (k k' : Screen) (v : AppState)
    (h : k' ≠ k) : slookup (sinsert m k v) k' = slookup m k' := by
  have hkk : k ≠ k' := fun hh => h hh.symm
  induction m with
  | nil => simp [slookup, sinsert, hkk]
  | cons p rest ih =>
    by_cases hp : p.1 = k <;> by_cases hp' : p.1 = k' <;>
      simp_all [slookup, sinsert]

/-- No message is `Sending` after `markSendingFailed`. -/

theorem markSendingFailed_not_sending (hist : List (Nat × List ChatMessage)) :
    ∀ p ∈ markSendingFailed hist, ∀ m ∈ p.2, m.status ≠ .sending := by
  intro p hp m hm
  simp only [markSendingFailed, List.mem_map] at hp
  obtain ⟨q, hq, rfl⟩ := hp
  simp only [List.mem_map] at hm
  obtain ⟨m', hm', rfl⟩ := hm
  by_cases hs : m'.status = .sending <;> simp [hs]

/-- C7 counterexample: with username lit. `" bob "`, `Logout` caches the chat
state under the trimmed key `("bob", "pw", "srv")` (third conjunct), but the
subsequent `LoginSuccess` with the very same username, password and server
address looks up the untrimmed key, misses, constructs a fresh `ChatState`
(0 channels, ack counter back at 100000 instead of the cached 1 and 100055)
and issues the `ChannelsList`/`UserStatuses` requests — refuting the claimed
restore. -/

theorem c7_counterexample :
    (c7Seq.map (·.2)) =
      some [ClientCall.requestChannelIds, ClientCall.requestUserStatuses] ∧
    (c7Seq.map (fun p => match p.1.currentState with
       | AppState.chat c => some (c.channels.length, c.incrementingAckId)
       | _ => none)) = some (some (0, 100000)) ∧
    (handleChatEvent 0 cexC7State .logout).map
      (fun p => (slookup p.1.stateMap (Screen.chat "bob" "pw" "srv")).isSome) =
      some true :=
  ⟨rfl, rfl, rfl⟩

/-- C7 as amended: `Logout` with a cached Login state stores the ChatState —
Sending messages re-marked FailedToSend, pending-ack FIFO cleared — under
the key (trimmed username, trimmed password, server-address string) and
restores the Login view; a subsequent `LoginSuccess` restores that cached
ChatState with no `ChannelsList`/`UserStatuses` requests provided the login
inputs equal the trimmed chat credentials (the lookup uses the untrimmed
inputs, so usernames or passwords with surrounding whitespace miss the
cache). -/

theorem c7_logout_then_relogin_restores :
    ∀ (n₁ n₂ uid : Nat) (t : TuiState) (c : ChatState) (l : LoginState),
      t.currentState = .chat c →
      slookup t.stateMap .login = some (.login l) →
      l.serverAddress = some c.serverAddress →
      l.usernameInput = strTrim c.currentUser.username →
      l.passwordInput = strTrim c.currentUser.password →
      ∃ t₁ : TuiState,
        handleChatEvent n₁ t .logout = some (t₁, logoutTypingCalls c ++ [.disconnect]) ∧
        (logoutTypingCalls c ++ [ClientCall.disconnect]).getLast? = some .disconnect ∧
        t₁.currentState = .login l ∧
        slookup t₁.stateMap
          (Screen.chat (strTrim c.currentUser.username) (strTrim c.currentUser.password)
            c.serverAddress) =
          some (.chat { c with chatHistory := markSendingFailed c.chatHistory,
                               waitingMessageAcksId := [] }) ∧
        (∀ p ∈ markSendingFailed c.chatHistory, ∀ m ∈ p.2, m.status ≠ .sending) ∧
        handleLoginEvent n₂ t₁ (.loginSuccess uid) =
          some ({ t₁ with
                  currentState := .chat { c with
                    chatHistory := markSendingFailed c.chatHistory,
                    waitingMessageAcksId := [] },
                  stateMap := sinsert t₁.stateMap .login
                    (.login { l with inputStatus := .allFine }) }, []) := by
  intro n₁ n₂ uid t c l hcur hlogin haddr huser hpass
  have hkey : Screen.chat (strTrim c.currentUser.username) (strTrim c.currentUser.password)
      c.serverAddress ≠ Screen.login := by simp
  refine ⟨{ t with
      currentState := .login l,
      stateMap := sinsert t.stateMap
        (Screen.chat (strTrim c.currentUser.username) (strTrim c.currentUser.password)
          c.serverAddress)
        (.chat { c with chatHistory := markSendingFailed c.chatHistory,
                        waitingMessageAcksId := [] }),
      clientStatus := .disconnected }, ?_, ?_, ?_, ?_,
    markSendingFailed_not_sending c.chatHistory, ?_⟩
  · simp only [handleChatEvent, hcur, hlogin]
  · exact List.getLast?_concat _
  · rfl
  · exact slookup_sinsert_self _ _ _
  · simp only [handleLoginEvent, haddr, huser, hpass]
    rw [slookup_sinsert_ne _ _ _ _ hkey, slookup_sinsert_self]

/-- Witness for `c7_logout_then_relogin_restores` on the concrete
whitespace-free state. -/

theorem c7_witness :
    ∃ t₁ : TuiState,
      handleChatEvent 0 restoreDemoState .logout =
        some (t₁, logoutTypingCalls restoreDemoChat ++ [.disconnect]) ∧
      (logoutTypingCalls restoreDemoChat ++ [ClientCall.disconnect]).getLast? =
        some .disconnect ∧
      t₁.currentState = .login restoreDemoLogin ∧
      slookup t₁.stateMap
        (Screen.chat (strTrim restoreDemoChat.currentUser.username)
          (strTrim restoreDemoChat.currentUser.password) restoreDemoChat.serverAddress) =
        some (.chat { restoreDemoChat with
          chatHistory := markSendingFailed restoreDemoChat.chatHistory,
          waitingMessageAcksId := [] }) ∧
      (∀ p ∈ markSendingFailed restoreDemoChat.chatHistory, ∀ m ∈ p.2,
        m.status ≠ .sending) ∧
      handleLoginEvent 3 t₁ (.loginSuccess 1) =
        some ({ t₁ with
                currentState := .chat { restoreDemoChat with
                  chatHistory := markSendingFailed restoreDemoChat.chatHistory,
                  waitingMessageAcksId := [] },
                stateMap := sinsert t₁.stateMap .login
                  (.login { restoreDemoLogin with inputStatus := .allFine }) }, []) :=
  c7_logout_then_relogin_restores 0 3 1 restoreDemoState restoreDemoChat restoreDemoLogin
    rfl rfl rfl (by decide) (by decide)

/-! ### C2: the pending-ack / Sending-set invariant -/

/-- `msgSendingIds` distributes over append. -/

theorem msgSendingIds_append (a b : List ChatMessage) :
    msgSendingIds (a ++ b) = msgSendingIds a ++ msgSendingIds b := by
  simp [msgSendingIds, List.filter_append]

/-- Flattening histories commutes with collecting sending ids. -/

theorem flatMap_msgSendingIds (hist : List (Nat × List ChatMessage)) :
    hist.flatMap (fun p => msgSendingIds p.2) = msgSendingIds (hist.flatMap (·.2)) := by
  induction hist with
  | nil => simp [msgSendingIds]
  | cons p rest ih => simp [msgSendingIds_append, ih]

/-- The sending ids of a state are those of its flattened messages. -/

theorem sendingIds_eq (c : ChatState) : sendingIds c = msgSendingIds (allMessages c) :=
  flatMap_msgSendingIds c.chatHistory

/-- The found flag of `updateFirst` is `any`. -/

theorem updateFirst_found_eq_any (p : α → Bool) (f : α → α) (l : List α) :
    (updateFirst p f l).2 = l.any p := by
  induction l with
  | nil => simp [updateFirst]
  | cons x xs ih =>
    by_cases hp : p x <;> simp [updateFirst, hp, ih]

/-- When nothing matches, `updateFirst` is the identity. -/

theorem updateFirst_not_found (p : α → Bool) (f : α → α) (l : List α)
    (h : l.any p = false) : (updateFirst p f l).1 = l := by
  induction l with
  | nil => simp [updateFirst]
  | cons x xs ih =>
    simp only [List.any_cons, Bool.or_eq_false_iff] at h
    simp [updateFirst, h.1, ih h.2]

/-- Decomposition of a successful `updateFirst`. -/

theorem updateFirst_decomp (p : α → Bool) (f : α → α) (l : List α)
    (h : (updateFirst p f l).2 = true) :
    ∃ pre x post, l = pre ++ x :: post ∧ pre.any p = false ∧ p x = true ∧
      (updateFirst p f l).1 = pre ++ f x :: post := by
  induction l with
  | nil => simp [updateFirst] at h
  | cons y ys ih =>
    by_cases hp : p y
    · exact ⟨[], y, ys, by simp, by simp, hp, by simp [updateFirst, hp]⟩
    · simp only [updateFirst, hp, if_neg, Bool.false_eq_true, not_false_iff] at h ⊢
      obtain ⟨pre, x, post, hl, hpre, hx, hres⟩ := ih h
      exact ⟨y :: pre, x, post, by simp [hl], by simp [hp, hpre], hx, by simp [hres]⟩

/-- `updateFirst` over an append. -/

theorem updateFirst_append (p : α → Bool) (f : α → α) (a b : List α) :
    updateFirst p f (a ++ b) =
      (if a.any p then ((updateFirst p f a).1 ++ b, true)
       else (a ++ (updateFirst p f b).1, (updateFirst p f b).2)) := by
  induction a with
  | nil => simp [updateFirst]
  | cons x xs ih =>
    by_cases hp : p x
    · simp [updateFirst, hp]
    · simp only [List.cons_append, updateFirst, hp, if_neg, Bool.false_eq_true,
        not_false_iff, List.any_cons, Bool.false_or, List.append_eq]
      rw [ih]
      by_cases ha : xs.any p <;> simp [ha]

/-- The found flag of the history-wide update equals that on flattened
messages. -/

theorem updateFirstInHistory_found (p : ChatMessage → Bool) (f : ChatMessage → ChatMessage)
    (hist : List (Nat × List ChatMessage)) :
    (updateFirstInHistory p f hist).2 = (updateFirst p f (hist.flatMap (·.2))).2 := by
  induction hist with
  | nil => simp [updateFirstInHistory, updateFirst]
  | cons q rest ih =>
    simp only [updateFirstInHistory, List.flatMap_cons]
    rw [updateFirst_append]
    by_cases hq : (updateFirst p f q.2).2
    · have ha : q.2.any p = true := by rw [← updateFirst_found_eq_any p f]; exact hq
      simp [hq, ha]
    · have ha : q.2.any p = false := by rw [← updateFirst_found_eq_any p f]; simpa using hq
      simp [hq, ha, ih]

/-- Flattening the history-wide update equals updating the flattened
messages. -/

theorem updateFirstInHistory_flatten (p : ChatMessage → Bool) (f : ChatMessage → ChatMessage)
    (hist : List (Nat × List ChatMessage)) :
    ((updateFirstInHistory p f hist).1).flatMap (·.2) =
      (updateFirst p f (hist.flatMap (·.2))).1 := by
  induction hist with
  | nil => simp [updateFirstInHistory, updateFirst]
  | cons q rest ih =>
    simp only [updateFirstInHistory, List.flatMap_cons]
    rw [updateFirst_append]
    by_cases hq : (updateFirst p f q.2).2
    · have ha : q.2.any p = true := by rw [← updateFirst_found_eq_any p f]; exact hq
      simp [hq, ha]
    · have ha : q.2.any p = false := by rw [← updateFirst_found_eq_any p f]; simpa using hq
      simp [hq, ha, ih, updateFirst_not_found p f q.2 ha]

/-- Membership in sending ids after a successful ack update: under the
aliasing side conditions of `ackPopSafe`, the updated messages' sending
ids are exactly the queue without its popped last element. -/

theorem ack_found_mem (msgs : List ChatMessage) (fifo : List Nat) (L serverId : Nat)
    (hInv : ∀ i, i ∈ msgSendingIds msgs ↔ i ∈ fifo)
    (hAll : ∀ m ∈ msgs, m.messageId = L → m.status = .sending)
    (hCount : msgs.countP (fun m => m.messageId == L) ≤ 1)
    (hLast : fifo.getLast? = some L)
    (hCnt : fifo.count L = 1)
    (hFound : (updateFirst (fun m => m.messageId == L)
        (fun m => { m with status := .send, messageId := serverId }) msgs).2 = true) :
    ∀ i, i ∈ msgSendingIds (updateFirst (fun m => m.messageId == L)
        (fun m => { m with status := .send, messageId := serverId }) msgs).1 ↔
      i ∈ fifo.dropLast := by
  obtain ⟨pre, x, post, hdec, hpre, hx, hres⟩ := updateFirst_decomp _ _ _ hFound
  have hxid : x.messageId = L := by simpa using hx
  have hfifo : fifo.dropLast ++ [L] = fifo :=
    List.dropLast_append_getLast? L (by simp [hLast])
  have hLnotDrop : L ∉ fifo.dropLast := by
    intro hmem
    have h1 : 1 ≤ (fifo.dropLast).count L := List.count_pos_iff.mpr hmem
    have h2 : 2 ≤ fifo.count L := by
      rw [← hfifo, List.count_append]
      have hone : List.count L [L] = 1 := by simp
      omega
    omega
  have hLpre : L ∉ msgSendingIds pre := by
    intro hmem
    simp only [msgSendingIds, List.mem_map, List.mem_filter] at hmem
    obtain ⟨m, ⟨hm, _⟩, hid⟩ := hmem
    have hany : pre.any (fun m => m.messageId == L) = true :=
      List.any_eq_true.mpr ⟨m, hm, by simp [hid]⟩
    rw [hpre] at hany
    exact absurd hany (by simp)
  have hLpost : L ∉ msgSendingIds post := by
    intro hmem
    simp only [msgSendingIds, List.mem_map, List.mem_filter] at hmem
    obtain ⟨m, ⟨hm, _⟩, hid⟩ := hmem
    have hpost1 : 0 < post.countP (fun m => m.messageId == L) :=
      List.countP_pos_iff.mpr ⟨m, hm, by simp [hid]⟩
    have h2 : 2 ≤ msgs.countP (fun m => m.messageId == L) := by
      rw [hdec, List.countP_append, List.countP_cons]
      simp only [hx, if_true]
      omega
    omega
  intro i
  rw [hres]
  have happ : ∀ (y : ChatMessage) (a b : List ChatMessage),
      a ++ y :: b = a ++ [y] ++ b := by simp
  have hmid : ∀ y : ChatMessage, y.status = .send →
      msgSendingIds (pre ++ y :: post) = msgSendingIds pre ++ msgSendingIds post := by
    intro y hy
    rw [happ, msgSendingIds_append, msgSendingIds_append]
    simp [msgSendingIds, hy]
  have hxs : x.status = .sending := hAll x (by rw [hdec]; simp) hxid
  have hold : msgSendingIds msgs = msgSendingIds pre ++ [L] ++ msgSendingIds post := by
    rw [hdec, happ, msgSendingIds_append, msgSendingIds_append]
    simp [msgSendingIds, hxs, hxid]
  rw [hmid _ rfl]
  by_cases hiL : i = L
  · subst hiL
    simp only [List.mem_append]
    constructor
    · rintro (h | h)
      · exact absurd h hLpre
      · exact absurd h hLpost
    · intro h; exact absurd h hLnotDrop
  · constructor
    · intro hmem
      have hin : i ∈ msgSendingIds msgs := by
        rw [hold]
        rcases List.mem_append.mp hmem with h | h
        · exact List.mem_append.mpr (.inl (List.mem_append.mpr (.inl h)))
        · exact List.mem_append.mpr (.inr h)
      have hif : i ∈ fifo := (hInv i).mp hin
      rw [← hfifo] at hif
      rcases List.mem_append.mp hif with h | h
      · exact h
      · simp only [List.mem_singleton] at h
        exact absurd h hiL
    · intro hmem
      have hif : i ∈ fifo := by
        rw [← hfifo]; exact List.mem_append.mpr (.inl hmem)
      have hin : i ∈ msgSendingIds msgs := (hInv i).mpr hif
      rw [hold] at hin
      rcases List.mem_append.mp hin with h | h
      · rcases List.mem_append.mp h with h' | h'
        · exact List.mem_append.mpr (.inl h')
        · simp only [List.mem_singleton] at h'
          exact absurd h' hiL
      · exact List.mem_append.mpr (.inr h)

/-- Reduce an ack-invariant goal to its two relevant fields. -/

theorem ackInv_fields (hist : List (Nat × List ChatMessage)) (fifo : List Nat)
    (H : ∀ i, i ∈ hist.flatMap (fun p => msgSendingIds p.2) ↔ i ∈ fifo) :
    ∀ c' : ChatState, c'.chatHistory = hist → c'.waitingMessageAcksId = fifo →
      ackInv c' := by
  intro c' hh hf i
  unfold sendingIds
  rw [hh, hf]
  exact H i

/-- State-level helper: the cached map unchanged, current chat state checked
pointwise. -/

theorem ackInvT_mk' {t t' : TuiState} (hInv : ackInvT t)
    (hm : t'.stateMap = t.stateMap)
    (hc : ∀ cc, t'.currentState = .chat cc → ackInv cc) : ackInvT t' :=
  ⟨hc, fun k cc hmem => hInv.2 k cc (hm ▸ hmem)⟩

/-- Membership in sending ids after pushing a `Sending` message into a
channel entry. -/

theorem flatSendingIds_entryPush (k : Nat) (msg : ChatMessage)
    (hmsg : msg.status = .sending) :
    ∀ hist : List (Nat × List ChatMessage), ∀ i,
      i ∈ (aentryModify hist k [] (fun ms => ms ++ [msg])).flatMap
          (fun p => msgSendingIds p.2) ↔
        (i ∈ hist.flatMap (fun p => msgSendingIds p.2) ∨ i = msg.messageId) := by
  intro hist
  induction hist with
  | nil =>
    intro i
    simp [aentryModify, msgSendingIds, hmsg]
  | cons p rest ih =>
    intro i
    by_cases hp : p.1 = k
    · have hap : msgSendingIds (p.2 ++ [msg]) =
          msgSendingIds p.2 ++ [msg.messageId] := by
        rw [msgSendingIds_append]
        simp [msgSendingIds, hmsg]
      simp only [aentryModify, hp, if_pos, List.flatMap_cons, hap, List.mem_append,
        List.mem_singleton]
      tauto
    · simp only [aentryModify, hp, if_neg, not_false_iff, List.flatMap_cons,
        List.mem_append, ih i]
      tauto

/-- Sending ids are unchanged by an entry modification that preserves them
pointwise. -/

theorem flatSendingIds_entryPreserve (k : Nat) (f : List ChatMessage → List ChatMessage)
    (hf : ∀ ms, msgSendingIds (f ms) = msgSendingIds ms) :
    ∀ hist : List (Nat × List ChatMessage),
      (aentryModify hist k [] f).flatMap (fun p => msgSendingIds p.2) =
        hist.flatMap (fun p => msgSendingIds p.2) := by
  intro hist
  induction hist with
  | nil =>
    simp only [aentryModify, List.flatMap_cons, List.flatMap_nil]
    rw [hf]
    simp [msgSendingIds]
  | cons p rest ih =>
    by_cases hp : p.1 = k
    · simp [aentryModify, hp, hf]
    · simp [aentryModify, hp, ih]

/-- `markSendingFailed` leaves no sending ids. -/

theorem flatSendingIds_markSendingFailed (hist : List (Nat × List ChatMessage)) :
    (markSendingFailed hist).flatMap (fun p => msgSendingIds p.2) = [] := by
  induction hist with
  | nil => simp [markSendingFailed]
  | cons p rest ih =>
    simp only [markSendingFailed, List.map_cons, List.flatMap_cons] at *
    rw [ih]
    have hz : msgSendingIds (p.2.map (fun m =>
        if m.status = .sending then { m with status := .failedToSend } else m)) = [] := by
      induction p.2 with
      | nil => simp [msgSendingIds]
      | cons m ms ihm =>
        by_cases hs : m.status = .sending <;>
          simp_all [msgSendingIds, List.filter_cons, hs]
    simp [hz]

/-- `applyHistory` keeps the pending-ack queue. -/

theorem applyHistory_fifo (ms : List HistoryMessage) :
    ∀ c : ChatState, (applyHistory c ms).waitingMessageAcksId = c.waitingMessageAcksId := by
  induction ms with
  | nil => intro c; rfl
  | cons m rest ih =>
    intro c
    by_cases hts : dateTimeOk m.sentTimestamp
    · simp only [applyHistory, hts, if_pos]
      rw [ih]
    · simp [applyHistory, hts]

/-- `applyHistory` keeps the sending ids (it appends only `Send`-status
messages, deduplicated). -/

theorem applyHistory_sendingIds (ms : List HistoryMessage) :
    ∀ c : ChatState, sendingIds (applyHistory c ms) = sendingIds c := by
  induction ms with
  | nil => intro c; rfl
  | cons m rest ih =>
    intro c
    by_cases hts : dateTimeOk m.sentTimestamp
    · simp only [applyHistory, hts, if_pos]
      rw [ih]
      unfold sendingIds
      apply flatSendingIds_entryPreserve
      intro msgs
      by_cases hd : msgs.any (fun x => x.messageId == m.messageId)
      · simp [hd]
      · simp only [hd, Bool.false_eq_true, if_neg, not_false_iff]
        rw [msgSendingIds_append]
        simp [msgSendingIds]
    · simp [applyHistory, hts]

/-- `addChannels` keeps the history and the pending-ack queue. -/

theorem addChannels_keeps (now : Nat) :
    ∀ (cs : List Channel) (c : ChatState) (calls : List ClientCall),
      (addChannels now c calls cs).1.chatHistory = c.chatHistory ∧
      (addChannels now c calls cs).1.waitingMessageAcksId = c.waitingMessageAcksId := by
  intro cs
  induction cs with
  | nil => intro c calls; exact ⟨rfl, rfl⟩
  | cons ch rest ih =>
    intro c calls
    simp only [addChannels]
    exact ih _ _

/-- A successful `slookup` is a membership. -/

theorem slookup_mem (m : List (Screen × AppState)) (k : Screen) (v : AppState)
    (h : slookup m k = some v) : (k, v) ∈ m := by
  induction m with
  | nil => simp [slookup] at h
  | cons p rest ih =>
    obtain ⟨pk, pv⟩ := p
    by_cases hp : pk = k
    · simp only [slookup, hp, if_pos, Option.some.injEq] at h
      subst hp
      subst h
      exact List.mem_cons_self _ _
    · simp only [slookup, hp, if_neg, not_false_iff] at h
      exact List.mem_cons_of_mem _ (ih h)

/-- Membership after `sinsert` comes from the old map or is the new pair. -/

theorem mem_sinsert (m : List (Screen × AppState)) (k : Screen) (v : AppState)
    (x : Screen × AppState) (h : x ∈ sinsert m k v) : x ∈ m ∨ x = (k, v) := by
  induction m with
  | nil => simpa [sinsert] using h
  | cons p rest ih =>
    obtain ⟨pk, pv⟩ := p
    by_cases hp : pk = k
    · simp only [sinsert, hp, if_pos] at h
      rcases List.mem_cons.mp h with h1 | h1
      · right; exact h1
      · left; exact List.mem_cons_of_mem _ h1
    · simp only [sinsert, hp, if_neg, not_false_iff] at h
      rcases List.mem_cons.mp h with h1 | h1
      · left; exact h1 ▸ List.mem_cons_self _ _
      · rcases ih h1 with h2 | h2
        · left; exact List.mem_cons_of_mem _ h2
        · right; exact h2

/-- `ackInv` depends only on the history and the queue. -/

theorem ackInv_congr {c c' : ChatState} (h : ackInv c)
    (hh : c'.chatHistory = c.chatHistory)
    (hf : c'.waitingMessageAcksId = c.waitingMessageAcksId) : ackInv c' :=
  ackInv_fields c.chatHistory c.waitingMessageAcksId (fun i => h i) c' hh hf

/-- C2 as amended: the equality between the set of `Sending` message ids
and the set of pending-ack FIFO ids is preserved by every Chat-mode event
handler — including all cached chat states — provided that for a
`MessageSendAck` the pending id the handler pops identifies a unique
message and that message is `Sending` (`ackPopSafe`).  Without that
aliasing side condition the equality can break (see the counterexample):
a deduplicated history message sharing the pending local id diverts the
lookup. -/

theorem c2_ack_fifo_invariant_preserved :
    ∀ (now : Nat) (t : TuiState) (e : TuiEvent) (t' : TuiState) (calls : List ClientCall),
      handleChatEvent now t e = some (t', calls) →
      ackInvT t →
      (∀ c, t.currentState = .chat c → ackPopSafe c e) →
      ackInvT t' := by
  intro now t e t' calls h hInv hSafe
  cases hcur : t.currentState with
  | login l =>
    simp only [handleChatEvent, TuiState.setChat, hcur] at h
    exact Option.noConfusion h
  | chat c =>
  have hAckC : ackInv c := hInv.1 c hcur
  have hSafe' := hSafe c hcur
  cases e with
  | log entry =>
    simp only [handleChatEvent, TuiState.setChat, hcur, Option.some.injEq, Prod.mk.injEq] at h
    obtain ⟨rfl, rfl⟩ := h
    exact ackInvT_mk' hInv rfl (fun cc hcc => by
      injection hcc with h3; subst h3
      exact ackInv_congr hAckC rfl rfl)
  | exit =>
    simp only [handleChatEvent, TuiState.setChat, hcur, Option.some.injEq, Prod.mk.injEq] at h
    obtain ⟨rfl, rfl⟩ := h
    exact ackInvT_mk' hInv rfl (fun cc hcc => by
      injection hcc with h3; subst h3
      exact ackInv_congr hAckC rfl rfl)
  | channelUp =>
    simp only [handleChatEvent, TuiState.setChat, hcur, Option.some.injEq, Prod.mk.injEq] at h
    obtain ⟨rfl, rfl⟩ := h
    exact ackInvT_mk' hInv rfl (fun cc hcc => by
      injection hcc with h3; subst h3
      exact ackInv_congr hAckC rfl rfl)
  | channelDown =>
    simp only [handleChatEvent, TuiState.setChat, hcur] at h
    split at h
    · exact Option.noConfusion h
    · simp only [Option.some.injEq, Prod.mk.injEq] at h
      obtain ⟨rfl, rfl⟩ := h
      exact ackInvT_mk' hInv rfl (fun cc hcc => by
        injection hcc with h3; subst h3
        exact ackInv_congr hAckC rfl rfl)
  | chatFocusChange f =>
    simp only [handleChatEvent, TuiState.setChat, hcur, Option.some.injEq, Prod.mk.injEq] at h
    obtain ⟨rfl, rfl⟩ := h
    exact ackInvT_mk' hInv rfl (fun cc hcc => by
      injection hcc with h3; subst h3
      exact ackInv_congr hAckC rfl rfl)
  | loginFocusChange f =>
    simp only [handleChatEvent, TuiState.setChat, hcur, Option.some.injEq, Prod.mk.injEq] at h
    obtain ⟨rfl, rfl⟩ := h
    exact hInv
  | inputRight =>
    simp only [handleChatEvent, TuiState.setChat, hcur] at h
    repeat' split at h
    all_goals (
      simp only [Option.some.injEq, Prod.mk.injEq] at h
      obtain ⟨rfl, rfl⟩ := h
      first
      | exact hInv
      | exact ackInvT_mk' hInv rfl (fun cc hcc => by
          injection hcc with h3; subst h3
          exact ackInv_congr hAckC rfl rfl))
  | inputRightTab =>
    simp only [handleChatEvent, TuiState.setChat, hcur] at h
    repeat' split at h
    all_goals (
      simp only [Option.some.injEq, Prod.mk.injEq] at h
      obtain ⟨rfl, rfl⟩ := h
      first
      | exact hInv
      | exact ackInvT_mk' hInv rfl (fun cc hcc => by
          injection hcc with h3; subst h3
          exact ackInv_congr hAckC rfl rfl))
  | inputLeft =>
    simp only [handleChatEvent, TuiState.setChat, hcur] at h
    repeat' split at h
    all_goals (
      simp only [Option.some.injEq, Prod.mk.injEq] at h
      obtain ⟨rfl, rfl⟩ := h
      first
      | exact hInv
      | exact ackInvT_mk' hInv rfl (fun cc hcc => by
          injection hcc with h3; subst h3
          exact ackInv_congr hAckC rfl rfl))
  | inputLeftTab =>
    simp only [handleChatEvent, TuiState.setChat, hcur] at h
    repeat' split at h
    all_goals (
      simp only [Option.some.injEq, Prod.mk.injEq] at h
      obtain ⟨rfl, rfl⟩ := h
      first
      | exact hInv
      | exact ackInvT_mk' hInv rfl (fun cc hcc => by
          injection hcc with h3; subst h3
          exact ackInv_congr hAckC rfl rfl))
  | inputChar chr =>
    simp only [handleChatEvent, TuiState.setChat, hcur] at h
    repeat' split at h
    all_goals first
    | exact Option.noConfusion h
    | (simp only [Option.some.injEq, Prod.mk.injEq] at h
       obtain ⟨rfl, rfl⟩ := h
       first
       | exact hInv
       | exact ackInvT_mk' hInv rfl (fun cc hcc => by
           injection hcc with h3; subst h3
           exact ackInv_congr hAckC rfl rfl))
  | inputDelete =>
    simp only [handleChatEvent, TuiState.setChat, hcur] at h
    repeat' split at h
    all_goals first
    | exact Option.noConfusion h
    | (simp only [Option.some.injEq, Prod.mk.injEq] at h
       obtain ⟨rfl, rfl⟩ := h
       first
       | exact hInv
       | exact ackInvT_mk' hInv rfl (fun cc hcc => by
           injection hcc with h3; subst h3
           exact ackInv_congr hAckC rfl rfl))
  | messageSend =>
    simp only [handleChatEvent, TuiState.setChat, hcur] at h
    repeat' split at h
    all_goals (
      simp only [Option.some.injEq, Prod.mk.injEq] at h
      obtain ⟨rfl, rfl⟩ := h
      first
      | exact hInv
      | exact ackInvT_mk' hInv rfl (fun cc hcc => by
          injection hcc with h3; subst h3
          refine ackInv_fields _ _ ?_ _ rfl rfl
          intro i
          rw [flatSendingIds_entryPush _ _ rfl _ i, List.mem_append,
            List.mem_singleton]
          exact or_congr (hAckC i) Iff.rfl))
  | toggleLogs =>
    simp only [handleChatEvent, TuiState.setChat, hcur, Option.some.injEq, Prod.mk.injEq] at h
    obtain ⟨rfl, rfl⟩ := h
    exact ackInvT_mk' hInv rfl (fun cc hcc => by
      injection hcc with h3; subst h3
      exact ackInv_congr hAckC rfl rfl)
  | loginSuccess uid =>
    simp only [handleChatEvent, TuiState.setChat, hcur, Option.some.injEq, Prod.mk.injEq] at h
    obtain ⟨rfl, rfl⟩ := h
    exact hInv
  | login =>
    simp only [handleChatEvent, TuiState.setChat, hcur, Option.some.injEq, Prod.mk.injEq] at h
    obtain ⟨rfl, rfl⟩ := h
    exact hInv
  | logout =>
    simp only [handleChatEvent, TuiState.setChat, hcur] at h
    split at h
    case _ loginState heq =>
      simp only [Option.some.injEq, Prod.mk.injEq] at h
      obtain ⟨rfl, rfl⟩ := h
      constructor
      · intro cc hcc
        have hls : loginState = .chat cc := hcc
        rw [hls] at heq
        exact hInv.2 Screen.login cc (slookup_mem _ _ _ heq)
      · intro k cc hmem
        rcases mem_sinsert _ _ _ _ hmem with hm | hm
        · exact hInv.2 k cc hm
        · injection hm with h4 h5
          injection h5 with h6
          rw [h6]
          refine ackInv_fields _ [] ?_ _ rfl rfl
          intro i
          rw [flatSendingIds_markSendingFailed]
    case _ heq =>
      simp only [Option.some.injEq, Prod.mk.injEq] at h
      obtain ⟨rfl, rfl⟩ := h
      exact ackInvT_mk' hInv rfl (fun cc hcc => by
        injection hcc with h3; subst h3
        exact ackInv_congr hAckC rfl rfl)
  | loginFail reason =>
    simp only [handleChatEvent, TuiState.setChat, hcur, Option.some.injEq, Prod.mk.injEq] at h
    obtain ⟨rfl, rfl⟩ := h
    exact hInv
  | healthCheckRecv =>
    simp only [handleChatEvent, TuiState.setChat, hcur, Option.some.injEq, Prod.mk.injEq] at h
    obtain ⟨rfl, rfl⟩ := h
    exact hInv
  | disconnected =>
    simp only [handleChatEvent, TuiState.setChat, hcur] at h
    split at h
    · simp only [Option.some.injEq, Prod.mk.injEq] at h
      obtain ⟨rfl, rfl⟩ := h
      exact ackInvT_mk' hInv rfl (fun cc hcc => by
        injection hcc with h3; subst h3
        refine ackInv_fields _ [] ?_ _ rfl rfl
        intro i
        rw [flatSendingIds_markSendingFailed])
    · simp only [Option.some.injEq, Prod.mk.injEq] at h
      obtain ⟨rfl, rfl⟩ := h
      exact hInv
  | channels cs =>
    simp only [handleChatEvent, TuiState.setChat, hcur, Option.some.injEq, Prod.mk.injEq] at h
    obtain ⟨rfl, rfl⟩ := h
    exact ackInvT_mk' hInv rfl (fun cc hcc => by
      injection hcc with h3; subst h3
      exact ackInv_congr hAckC (addChannels_keeps now cs c []).1
        (addChannels_keeps now cs c []).2)
  | channelIDs ids =>
    simp only [handleChatEvent, TuiState.setChat, hcur] at h
    split at h
    all_goals (
      simp only [Option.some.injEq, Prod.mk.injEq] at h
      obtain ⟨rfl, rfl⟩ := h
      exact hInv)
  | scrollUp =>
    simp only [handleChatEvent, TuiState.setChat, hcur] at h
    repeat' split at h
    all_goals (
      simp only [Option.some.injEq, Prod.mk.injEq] at h
      obtain ⟨rfl, rfl⟩ := h
      first
      | exact hInv
      | exact ackInvT_mk' hInv rfl (fun cc hcc => by
          injection hcc with h3; subst h3
          exact ackInv_congr hAckC rfl rfl))
  | scrollDown =>
    simp only [handleChatEvent, TuiState.setChat, hcur] at h
    repeat' split at h
    all_goals (
      simp only [Option.some.injEq, Prod.mk.injEq] at h
      obtain ⟨rfl, rfl⟩ := h
      first
      | exact hInv
      | exact ackInvT_mk' hInv rfl (fun cc hcc => by
          injection hcc with h3; subst h3
          exact ackInv_congr hAckC rfl rfl))
  | userStatusesUpdate us =>
    simp only [handleChatEvent, TuiState.setChat, hcur, Option.some.injEq, Prod.mk.injEq] at h
    obtain ⟨rfl, rfl⟩ := h
    exact ackInvT_mk' hInv rfl (fun cc hcc => by
      injection hcc with h3; subst h3
      exact ackInv_congr hAckC rfl rfl)
  | userStatusUpdate uid st =>
    simp only [handleChatEvent, TuiState.setChat, hcur, Option.some.injEq, Prod.mk.injEq] at h
    obtain ⟨rfl, rfl⟩ := h
    exact ackInvT_mk' hInv rfl (fun cc hcc => by
      injection hcc with h3; subst h3
      exact ackInv_congr hAckC rfl rfl)
  | users us =>
    simp only [handleChatEvent, TuiState.setChat, hcur, Option.some.injEq, Prod.mk.injEq] at h
    obtain ⟨rfl, rfl⟩ := h
    exact ackInvT_mk' hInv rfl (fun cc hcc => by
      injection hcc with h3; subst h3
      exact ackInv_congr hAckC rfl rfl)
  | historyUpdate ms =>
    simp only [handleChatEvent, TuiState.setChat, hcur, Option.some.injEq, Prod.mk.injEq] at h
    obtain ⟨rfl, rfl⟩ := h
    exact ackInvT_mk' hInv rfl (fun cc hcc => by
      injection hcc with h3; subst h3
      intro i
      rw [show sendingIds (applyHistory c ms) = sendingIds c from
          applyHistory_sendingIds ms c,
        show (applyHistory c ms).waitingMessageAcksId = c.waitingMessageAcksId from
          applyHistory_fifo ms c]
      exact hAckC i)
  | messageSendAck serverId =>
    simp only [handleChatEvent, TuiState.setChat, hcur] at h
    split at h
    case _ heq =>
      simp only [Option.some.injEq, Prod.mk.injEq] at h
      obtain ⟨rfl, rfl⟩ := h
      exact hInv
    case _ tempId heq =>
      simp only [ackPopSafe, heq] at hSafe'
      split at h
      case _ hfound =>
        simp only [Option.some.injEq, Prod.mk.injEq] at h
        obtain ⟨rfl, rfl⟩ := h
        exact ackInvT_mk' hInv rfl (fun cc hcc => by
          injection hcc with h3; subst h3
          refine ackInv_fields
            ((updateFirstInHistory (fun m => m.messageId == tempId)
              (fun m => { m with status := .send, messageId := serverId })
              c.chatHistory).1)
            c.waitingMessageAcksId.dropLast ?_ _ rfl rfl
          intro i
          rw [flatMap_msgSendingIds, updateFirstInHistory_flatten]
          refine ack_found_mem (c.chatHistory.flatMap (·.2)) c.waitingMessageAcksId
            tempId serverId
            (fun j => by
              have hj := hAckC j
              rw [sendingIds_eq] at hj
              exact hj)
            hSafe'.1 hSafe'.2.1 heq hSafe'.2.2 ?_ i
          rw [← updateFirstInHistory_found]
          exact hfound)
      case _ hfound =>
        simp only [Option.some.injEq, Prod.mk.injEq] at h
        obtain ⟨rfl, rfl⟩ := h
        exact ackInvT_mk' hInv rfl (fun cc hcc => by
          injection hcc with h3; subst h3
          refine ackInv_fields c.chatHistory
            (tempId :: c.waitingMessageAcksId.dropLast) ?_ _ rfl rfl
          intro i
          have hfifo : c.waitingMessageAcksId.dropLast ++ [tempId] =
              c.waitingMessageAcksId :=
            List.dropLast_append_getLast? tempId (by simp [heq])
          have hx : i ∈ c.waitingMessageAcksId ↔
              i ∈ tempId :: c.waitingMessageAcksId.dropLast := by
            conv_lhs => rw [← hfifo]
            simp only [List.mem_append, List.mem_singleton, List.mem_cons]
            tauto
          exact Iff.trans (hAckC i) hx)
  | messageMediaAck mid =>
    simp only [handleChatEvent, TuiState.setChat, hcur] at h
    exact Option.noConfusion h
  | media mm =>
    simp only [handleChatEvent, TuiState.setChat, hcur] at h
    exact Option.noConfusion h
  | typing channelId uid flag =>
    simp only [handleChatEvent, TuiState.setChat, hcur] at h
    repeat' split at h
    all_goals (
      simp only [Option.some.injEq, Prod.mk.injEq] at h
      obtain ⟨rfl, rfl⟩ := h
      first
      | exact hInv
      | exact ackInvT_mk' hInv rfl (fun cc hcc => by
          injection hcc with h3; subst h3
          exact ackInv_congr hAckC rfl rfl))
  | typingExpired =>
    simp only [handleChatEvent, TuiState.setChat, hcur] at h
    repeat' split at h
    all_goals (
      simp only [Option.some.injEq, Prod.mk.injEq] at h
      obtain ⟨rfl, rfl⟩ := h
      exact ackInvT_mk' hInv rfl (fun cc hcc => by
        injection hcc with h3; subst h3
        exact ackInv_congr hAckC rfl rfl))
  | possiblyUnhealthyConnection =>
    simp only [handleChatEvent, TuiState.setChat, hcur, Option.some.injEq, Prod.mk.injEq] at h
    obtain ⟨rfl, rfl⟩ := h
    exact ackInvT_mk' hInv rfl (fun cc hcc => by
      injection hcc with h3; subst h3
      exact ackInv_congr hAckC rfl rfl)
  | reconnect =>
    simp only [handleChatEvent, TuiState.setChat, hcur, Option.some.injEq, Prod.mk.injEq] at h
    obtain ⟨rfl, rfl⟩ := h
    exact ackInvT_mk' hInv rfl (fun cc hcc => by
      injection hcc with h3; subst h3
      exact ackInv_congr hAckC rfl rfl)
  | focusGained =>
    simp only [handleChatEvent, TuiState.setChat, hcur, Option.some.injEq, Prod.mk.injEq] at h
    obtain ⟨rfl, rfl⟩ := h
    exact ackInvT_mk' hInv rfl (fun cc hcc => by
      injection hcc with h3; subst h3
      exact ackInv_congr hAckC rfl rfl)
  | focusLost =>
    simp only [handleChatEvent, TuiState.setChat, hcur, Option.some.injEq, Prod.mk.injEq] at h
    obtain ⟨rfl, rfl⟩ := h
    exact ackInvT_mk' hInv rfl (fun cc hcc => by
      injection hcc with h3; subst h3
      exact ackInv_congr hAckC rfl rfl)
  | idleUser =>
    simp only [handleChatEvent, TuiState.setChat, hcur, Option.some.injEq, Prod.mk.injEq] at h
    obtain ⟨rfl, rfl⟩ := h
    exact ackInvT_mk' hInv rfl (fun cc hcc => by
      injection hcc with h3; subst h3
      exact ackInv_congr hAckC rfl rfl)
  | reply =>
    simp only [handleChatEvent, TuiState.setChat, hcur] at h
    repeat' split at h
    all_goals (
      simp only [Option.some.injEq, Prod.mk.injEq] at h
      obtain ⟨rfl, rfl⟩ := h
      exact ackInvT_mk' hInv rfl (fun cc hcc => by
        injection hcc with h3; subst h3
        exact ackInv_congr hAckC rfl rfl))
  | viewUsers =>
    simp only [handleChatEvent, TuiState.setChat, hcur, Option.some.injEq, Prod.mk.injEq] at h
    obtain ⟨rfl, rfl⟩ := h
    exact hInv

/-- C2 counterexample: after the reachable event sequence the invariant
holds (both sides are `[100000]`), but handling `MessageSendAck(42)` breaks
it — the handler pops 100000 and re-targets the history message that shares
that id, leaving the local message `Sending` with id 100000 while the FIFO
is empty.  So not every handler preserves the equality on reachable
states. -/

theorem c2_counterexample :
    cexC2Run cexC2Events = some ([100000], [100000]) ∧
    cexC2Run (cexC2Events ++ [.messageSendAck 42]) = some ([100000], []) :=
  ⟨rfl, rfl⟩

/-- Witness for `c2_ack_fifo_invariant_preserved`: a focus change on the
two-pending-message state keeps the invariant. -/

theorem c2_witness :
    ackInvT (ackDemoState.setChat { ackDemoChat with focus := .chatHistory }) := by
  have happ : handleChatEvent 0 ackDemoState (.chatFocusChange .chatHistory) =
      some (ackDemoState.setChat { ackDemoChat with focus := .chatHistory }, []) := rfl
  exact c2_ack_fifo_invariant_preserved 0 ackDemoState (.chatFocusChange .chatHistory)
    _ [] happ
    ⟨fun c hc => by injection hc with h4; subst h4; exact fun i => Iff.rfl,
     fun k c hm => nomatch hm⟩
    (fun c hc => by injection hc with h4; subst h4; trivial)

/-! ### C9: reconnect gating on tick -/

/-- A `Reconnect` is emitted exactly under the claimed condition. -/

theorem onTick_reconnect_mem (now : Nat) (s : TickState) :
    TickEvent.reconnect ∈ (onTick now s).1 ↔
      ((15000 < now - s.lastTransmit ∨ s.connectionStatus = .disconnected ∨
          s.connectionStatus = .reconnecting) ∧ 5000 < now - s.lastReconnect) := by
  cases hf : s.lastFocused <;>
    simp only [onTick, hf] <;>
    split_ifs <;>
    simp_all

/-- Whenever a `Reconnect` is emitted, the tick has set the last-reconnect
timestamp to the current time. -/

theorem onTick_reconnect_upd (now : Nat) (s : TickState) :
    TickEvent.reconnect ∈ (onTick now s).1 → ((onTick now s).2).lastReconnect = now := by
  cases hf : s.lastFocused <;>
    simp only [onTick, hf] <;>
    split_ifs <;>
    simp_all

/-- C9: a `Reconnect` is emitted iff (transmit silence exceeds 15 s, or the
status is `Disconnected` or `Reconnecting`) and the last reconnect attempt
is more than 5 s old; the last-reconnect timestamp is updated at emission,
so two consecutive emissions are always more than 5 s apart, regardless of
the connection state in between. -/

theorem c9_reconnect_gating :
    (∀ (now : Nat) (s : TickState),
      TickEvent.reconnect ∈ (onTick now s).1 ↔
        ((15000 < now - s.lastTransmit ∨ s.connectionStatus = .disconnected ∨
            s.connectionStatus = .reconnecting) ∧ 5000 < now - s.lastReconnect)) ∧
    (∀ (now : Nat) (s : TickState),
      TickEvent.reconnect ∈ (onTick now s).1 → ((onTick now s).2).lastReconnect = now) ∧
    (∀ (n₁ n₂ : Nat) (s : TickState),
      TickEvent.reconnect ∈ (onTick n₁ s).1 →
      TickEvent.reconnect ∈ (onTick n₂ (onTick n₁ s).2).1 →
      n₁ + 5000 < n₂) := by
  refine ⟨onTick_reconnect_mem, onTick_reconnect_upd, ?_⟩
  intro n₁ n₂ s h1 h2
  have e1 := onTick_reconnect_upd n₁ s h1
  have hc := (onTick_reconnect_mem n₂ ((onTick n₁ s).2)).mp h2
  rw [e1] at hc
  have := hc.2
  omega

/-- Witness for `c9_reconnect_gating`: reconnects fire at 6 s and 12 s on
the concrete disconnected state, more than 5 s apart. -/

theorem c9_witness : (6000 : Nat) + 5000 < 12000 :=
  c9_reconnect_gating.2.2 6000 12000 demoTick (by decide) (by decide)

end Chatger
